import Mathlib

/-
  Verification development for the JobTrackerHW4 backend
  (src/backend/app.py, a Flask + SQLAlchemy application).

  The backend is shallowly embedded: each HTTP handler becomes a pure Lean
  function over an explicit database state `Db`; wall-clock instants
  (datetime.now) are passed in as an abstract tick `now : Nat`; request JSON
  payloads become explicit patch records whose fields distinguish key absence
  (outer Option) from a JSON null (inner Option).  The parts of the Python
  standard library the handlers rely on (str.strip, str.lower, str.replace,
  datetime.fromisoformat, datetime.isoformat, re matching of the email
  pattern) are modelled over ASCII strings, which covers every behaviour the
  handlers exercise.  External collaborators (Flask routing, JWT, the Gemini
  client, password hashing) are out of the core per the spec; password
  hashing is modelled as an injective opaque wrapper and the chat operation
  returns the assembled system prompt, the only part of the exchange the
  core computes.
-/

set_option maxHeartbeats 1000000

deriving instance DecidableEq for Except

namespace JT

/-- ASCII model of Python whitespace as used by `str.strip` and the
regex class `\s` (space, tab, newline, carriage return, vertical tab,
form feed). -/
def isPySpace (c : Char) : Bool :=
  c = ' ' || c = '\t' || c = '\n' || c = '\r' || c = '\x0b' || c = '\x0c'

/-- Model of Python `str.strip()`: drop leading and trailing whitespace. -/
def pyStrip (s : String) : String :=
  String.mk (((s.toList.dropWhile isPySpace).reverse.dropWhile isPySpace).reverse)

/-- Model of Python `str.lower()` restricted to ASCII letters. -/
def pyLower (s : String) : String :=
  String.mk (s.toList.map (fun c => if 'A' ≤ c && c ≤ 'Z' then Char.ofNat (c.toNat + 32) else c))

/-- Model of `(x or "")` for a JSON value `x` that is either null (`none`)
or a string: null gives `""`, and `"" or ""` is also `""`. -/
def orEmpty : Option String → String
  | none => ""
  | some s => s

/-- Model of `(x or d)` for a JSON value that is null or a string, with a
nonempty string default `d`: null and the empty string are falsy. -/
def pyOrStr (v : Option String) (d : String) : String :=
  match v with
  | none => d
  | some s => if s = "" then d else s

/-- Model of `data.get(k)` for a patch field: an absent key yields null. -/
def getOpt (f : Option (Option String)) : Option String := f.getD none

/-- Fuel-driven model of Python `str.replace(pat, rep)` on character lists
(all occurrences, scanned left to right).  The fuel is the input length,
which suffices for a nonempty pattern. -/
def replaceListAux (pat rep : List Char) : Nat → List Char → List Char
  | 0, cs => cs
  | _ + 1, [] => []
  | fuel + 1, c :: rest =>
    if pat.isPrefixOf (c :: rest) then
      rep ++ replaceListAux pat rep fuel ((c :: rest).drop pat.length)
    else
      c :: replaceListAux pat rep fuel rest

/-- Model of Python `str.replace(pat, rep)`. -/
def replaceList (pat rep cs : List Char) : List Char :=
  replaceListAux pat rep cs.length cs

/-- Model of Python `sep.join(parts)` for `sep = "\n"`. -/
def joinNl : List String → String
  | [] => ""
  | [x] => x
  | x :: y :: rest => x ++ "\n" ++ joinNl (y :: rest)

/-- A single ASCII apostrophe, built from its code point. -/
def sq : String := String.mk [Char.ofNat 39]

/-- Decimal digit character for `d % 10`. -/
def digitChar (d : Nat) : Char := Char.ofNat (48 + d % 10)

/-- Fuel-driven decimal rendering of a natural number. -/
def natDigitsAux : Nat → Nat → List Char
  | 0, _ => []
  | fuel + 1, n => if n < 10 then [digitChar n] else natDigitsAux fuel (n / 10) ++ [digitChar (n % 10)]

/-- Decimal rendering of a natural number (CPython int formatting). -/
def natDigits (n : Nat) : List Char := natDigitsAux (n + 1) n

/-- Zero-padded decimal rendering to width `w` (CPython `%02d`-style
formatting used by `datetime.isoformat` and `str(datetime)`). -/
def padNum (w n : Nat) : List Char :=
  List.replicate (w - (natDigits n).length) '0' ++ natDigits n

-- -----------------------------------------------------------------
-- A model of the CPython datetime values the handlers manipulate.
-- -----------------------------------------------------------------

/-- A CPython `datetime` value as used by the backend: civil fields plus an
optional fixed UTC offset in minutes (`none` = naive).  Microseconds are
always zero on the paths the backend exercises and are not modelled. -/
structure PyDatetime where
  year : Nat
  month : Nat
  day : Nat
  hour : Nat
  minute : Nat
  second : Nat
  tz : Option Int
  deriving DecidableEq, Repr

/-- Gregorian leap-year predicate. -/
def isLeap (y : Nat) : Bool := y % 4 == 0 && (y % 100 != 0 || y % 400 == 0)

/-- Days in a month of a given year. -/
def daysInMonth (y m : Nat) : Nat :=
  if m = 2 then (if isLeap y then 29 else 28)
  else if m = 4 || m = 6 || m = 9 || m = 11 then 30
  else 31

/-- Validity of a civil date, matching the range `datetime` accepts. -/
def validDate (y m d : Nat) : Bool :=
  1 ≤ y && y ≤ 9999 && 1 ≤ m && m ≤ 12 && 1 ≤ d && d ≤ daysInMonth y m

/-- Days from 0000-03-01 to the given civil date (era-based conversion,
used only to realise `astimezone` for nonzero offsets). -/
def daysFromCivilN (y m d : Nat) : Nat :=
  let yAdj := if m ≤ 2 then y - 1 else y
  let era := yAdj / 400
  let yoe := yAdj % 400
  let mp := if 2 < m then m - 3 else m + 9
  let doy := (153 * mp + 2) / 5 + d - 1
  let doe := yoe * 365 + yoe / 4 + doy - yoe / 100
  era * 146097 + doe

/-- Civil date from a day count measured from 0000-03-01. -/
def civilFromDaysN (z : Nat) : Nat × Nat × Nat :=
  let era := z / 146097
  let doe := z % 146097
  let yoe := (doe - doe / 1460 + doe / 36524 - doe / 146096) / 365
  let y := yoe + era * 400
  let doy := doe - (365 * yoe + yoe / 4 - yoe / 100)
  let mp := (5 * doy + 2) / 153
  let d := doy - (153 * mp + 2) / 5 + 1
  let m := if mp < 10 then mp + 3 else mp - 9
  (if m ≤ 2 then y + 1 else y, m, d)

/-- Shift a datetime by a signed number of minutes (whole-minute offsets,
so the seconds field is unchanged). -/
def shiftMinutes (dt : PyDatetime) (delta : Int) : PyDatetime :=
  let total : Int :=
    ((daysFromCivilN dt.year dt.month dt.day : Int) * 24 + dt.hour) * 60 + dt.minute + delta
  let totalN := total.toNat
  let z := totalN / 1440
  let rem := totalN % 1440
  let c := civilFromDaysN z
  { year := c.1, month := c.2.1, day := c.2.2, hour := rem / 60, minute := rem % 60,
    second := dt.second, tz := dt.tz }

/-- Model of `dt.astimezone(timezone.utc)` on an aware datetime: a datetime
already at offset zero keeps its civil fields; otherwise the civil time is
shifted by the negated offset.  On a naive datetime the backend never calls
this (it attaches UTC first), so the naive case is the identity. -/
def astimezoneUTC (dt : PyDatetime) : PyDatetime :=
  match dt.tz with
  | none => dt
  | some off =>
    if off = 0 then { dt with tz := some 0 }
    else { shiftMinutes dt (-off) with tz := some 0 }

-- -----------------------------------------------------------------
-- datetime.fromisoformat / isoformat / str(datetime)
-- -----------------------------------------------------------------

/-- Numeric value of a decimal digit character. -/
def digitVal (c : Char) : Nat := c.toNat - 48

/-- Parse exactly two decimal digits from the front of a character list. -/
def parse2 : List Char → Option (Nat × List Char)
  | c1 :: c2 :: rest =>
    if c1.isDigit && c2.isDigit then some (10 * digitVal c1 + digitVal c2, rest) else none
  | _ => none

/-- Parse exactly four decimal digits from the front of a character list. -/
def parse4 : List Char → Option (Nat × List Char)
  | c1 :: c2 :: c3 :: c4 :: rest =>
    if c1.isDigit && c2.isDigit && c3.isDigit && c4.isDigit then
      some (1000 * digitVal c1 + 100 * digitVal c2 + 10 * digitVal c3 + digitVal c4, rest)
    else none
  | _ => none

/-- Consume one expected character from the front of a character list. -/
def expectChar (c : Char) : List Char → Option (List Char)
  | x :: rest => if x = c then some rest else none
  | [] => none

/-- Parse a trailing UTC-offset suffix: empty input means naive, otherwise
a sign followed by `HH:MM`; the result is the offset in minutes. -/
def parseOffset : List Char → Option (Option Int)
  | [] => some none
  | '+' :: rest => do
    let (h, r1) ← parse2 rest
    let r2 ← expectChar ':' r1
    let (m, r3) ← parse2 r2
    if r3 = [] && h < 24 && m < 60 then some (some ((h : Int) * 60 + m)) else none
  | '-' :: rest => do
    let (h, r1) ← parse2 rest
    let r2 ← expectChar ':' r1
    let (m, r3) ← parse2 r2
    if r3 = [] && h < 24 && m < 60 then some (some (-((h : Int) * 60 + m))) else none
  | _ => none

/-- Model of CPython `datetime.fromisoformat`, restricted to the grammar the
backend feeds it: `YYYY-MM-DD`, optionally followed by `THH:MM:SS` and an
optional `(+|-)HH:MM` offset.  The further forms CPython accepts (space
separators, missing seconds, fractional seconds, offsets with seconds) are
never produced by the backend paths under verification and are rejected
here. -/
def fromisoChars (cs : List Char) : Option PyDatetime :=
  match parse4 cs with
  | none => none
  | some (y, r1) =>
    match expectChar '-' r1 with
    | none => none
    | some r2 =>
      match parse2 r2 with
      | none => none
      | some (mo, r3) =>
        match expectChar '-' r3 with
        | none => none
        | some r4 =>
          match parse2 r4 with
          | none => none
          | some (dy, r5) =>
            if !validDate y mo dy then none
            else
              match r5 with
              | [] => some ⟨y, mo, dy, 0, 0, 0, none⟩
              | sep :: r6 =>
                if sep = 'T' then
                  match parse2 r6 with
                  | none => none
                  | some (h, r7) =>
                    match expectChar ':' r7 with
                    | none => none
                    | some r8 =>
                      match parse2 r8 with
                      | none => none
                      | some (mi, r9) =>
                        match expectChar ':' r9 with
                        | none => none
                        | some r10 =>
                          match parse2 r10 with
                          | none => none
                          | some (se, r11) =>
                            if h < 24 && mi < 60 && se < 60 then
                              match parseOffset r11 with
                              | none => none
                              | some off => some ⟨y, mo, dy, h, mi, se, off⟩
                            else none
                else none

/-- A JSON scalar as delivered by `request.get_json()` for the fields the
backend reads.  Containers never reach the code paths under verification. -/
inductive JVal where
  | null
  | str (s : String)
  | num (n : Int)
  | boolean (b : Bool)
  deriving DecidableEq, Repr

/-- Python truthiness of a JSON scalar. -/
def pyTruthy : JVal → Bool
  | .null => false
  | .str s => s ≠ ""
  | .num n => n ≠ 0
  | .boolean b => b

/-- Lift a null-or-string patch value to a JSON scalar. -/
def jvalOfOpt : Option String → JVal
  | none => .null
  | some s => .str s

/-- `parse_iso_datetime` (src/backend/app.py:128): falsy values and numbers
(Python bools included, being `int` instances) give `None`; a stripped
10-character `YYYY-MM-DD` string is completed to midnight; otherwise any
`Z` is rewritten to `+00:00` before `fromisoformat`; a naive result is
tagged UTC and the final value is converted to UTC. -/
def parse_iso_datetime (value : JVal) : Option PyDatetime :=
  if !pyTruthy value then none
  else
    match value with
    | .null => none
    | .num _ => none
    | .boolean _ => none
    | .str s0 =>
      let s := pyStrip s0
      if s = "" then none
      else
        let cs := s.toList
        let dtOpt :=
          if cs.length = 10 && cs.getD 4 ' ' = '-' && cs.getD 7 ' ' = '-' then
            fromisoChars (cs ++ ['T', '0', '0', ':', '0', '0', ':', '0', '0'])
          else
            fromisoChars (replaceList ['Z'] ['+', '0', '0', ':', '0', '0'] cs)
        match dtOpt with
        | none => none
        | some dt =>
          let dt1 := if dt.tz = none then { dt with tz := some (0 : Int) } else dt
          some (astimezoneUTC dt1)

/-- Offset suffix of `datetime.isoformat` / `str(datetime)`: nothing for a
naive value, otherwise a sign and `HH:MM`. -/
def offsetChars : Option Int → List Char
  | none => []
  | some off =>
    (if off < 0 then ['-'] else ['+']) ++ padNum 2 (off.natAbs / 60) ++ [':'] ++ padNum 2 (off.natAbs % 60)

/-- The date-and-time body `YYYY-MM-DD<sep>HH:MM:SS` shared by
`isoformat` (sep `T`) and `str(datetime)` (sep space). -/
def dtBodyChars (sep : Char) (dt : PyDatetime) : List Char :=
  padNum 4 dt.year ++ ['-'] ++ padNum 2 dt.month ++ ['-'] ++ padNum 2 dt.day ++ [sep] ++
    padNum 2 dt.hour ++ [':'] ++ padNum 2 dt.minute ++ [':'] ++ padNum 2 dt.second

/-- Model of `datetime.isoformat()` (zero microseconds). -/
def isoformatChars (dt : PyDatetime) : List Char :=
  dtBodyChars 'T' dt ++ offsetChars dt.tz

/-- `dt_to_iso` (src/backend/app.py:149): `None` passes through, a naive
value is tagged UTC, and the UTC rendering has its `+00:00` suffix
rewritten to `Z`. -/
def dt_to_iso : Option PyDatetime → Option String
  | none => none
  | some dt =>
    let dt1 := if dt.tz = none then { dt with tz := some (0 : Int) } else dt
    let dt2 := astimezoneUTC dt1
    some (String.mk (replaceList ['+', '0', '0', ':', '0', '0'] ['Z'] (isoformatChars dt2)))

/-- Model of Python `str(d)` for an optional datetime as interpolated into
the chat prompt: `None` renders as the four letters None, a datetime via
`isoformat` with a space separator. -/
def pyStrOptDT : Option PyDatetime → String
  | none => "None"
  | some dt => String.mk (dtBodyChars ' ' dt ++ offsetChars dt.tz)

-- -----------------------------------------------------------------
-- Data model (src/backend/app.py:54-119) and configuration.
-- -----------------------------------------------------------------

/-- `MAX_USERS_TOTAL` (src/backend/app.py:21). -/
def MAX_USERS_TOTAL : Nat := 10

/-- `MAX_APPS_PER_USER` (src/backend/app.py:22). -/
def MAX_APPS_PER_USER : Nat := 5

/-- `DEFAULT_STATUSES` (src/backend/app.py:24). -/
def DEFAULT_STATUSES : List String :=
  ["Drafting", "Submitted", "Interview", "Offer", "Rejected", "Withdrawn"]

/-- Werkzeug `generate_password_hash`, modelled as an injective opaque
wrapper: no claim under verification depends on the hash contents. -/
structure PwHash where
  val : String
  deriving DecidableEq, Repr

/-- A row of the `users` table.  Wall-clock timestamps are abstract ticks. -/
structure UserRow where
  id : Nat
  email : String
  password_hash : PwHash
  created_at : Nat
  deriving DecidableEq, Repr

/-- A row of the `applications` table. -/
structure AppRow where
  id : Nat
  user_id : Nat
  company : String
  role : String
  link : Option String
  status : String
  due_date : Option PyDatetime
  submitted_date : Option PyDatetime
  notes : Option String
  created_at : Nat
  updated_at : Nat
  deriving DecidableEq, Repr

/-- A row of the `deliverables` table. -/
structure DelivRow where
  id : Nat
  application_id : Nat
  title : String
  dtype : String
  due_date : Option PyDatetime
  state : String
  content : Option String
  is_done : Bool
  created_at : Nat
  updated_at : Nat
  deriving DecidableEq, Repr

/-- A row of the `writing_bank` table. -/
structure WritingRow where
  id : Nat
  user_id : Nat
  title : String
  tags : Option String
  content : String
  created_at : Nat
  updated_at : Nat
  deriving DecidableEq, Repr

/-- The relational store: one list per table in storage order, plus the
autoincrement counters for the integer primary keys. -/
structure Db where
  users : List UserRow
  applications : List AppRow
  deliverables : List DelivRow
  writing : List WritingRow
  nextUserId : Nat
  nextAppId : Nat
  nextDelivId : Nat
  nextWritingId : Nat
  deriving DecidableEq, Repr

/-- An error reply `(status code, error message)` as produced by
`jsonify({"error": msg}), code`. -/
abbrev Err := Nat × String

/-- Update the first list element satisfying the predicate (the ORM row
returned by `.first()`, mutated in place). -/
def updateFirst {α : Type} (q : α → Bool) (f : α → α) : List α → List α
  | [] => []
  | x :: rest => if q x then f x :: rest else x :: updateFirst q f rest

/-- Delete the first list element satisfying the predicate
(`db.delete(row)` on the row returned by `.first()`). -/
def deleteFirst {α : Type} (q : α → Bool) : List α → List α
  | [] => []
  | x :: rest => if q x then rest else x :: deleteFirst q rest

/-- The ownership filter for Applications: `Application.id == app_id,
Application.user_id == user_id`. -/
def appOwnedBy (uid aid : Nat) (a : AppRow) : Bool :=
  a.id == aid && a.user_id == uid

/-- `.first()` over the Applications ownership filter. -/
def findApp (uid aid : Nat) (db : Db) : Option AppRow :=
  db.applications.find? (appOwnedBy uid aid)

/-- The two-table join filter for Deliverables: some Application row joins
the deliverable and belongs to the caller. -/
def delivOwnedBy (uid did : Nat) (db : Db) (d : DelivRow) : Bool :=
  d.id == did && db.applications.any (fun a => a.id == d.application_id && a.user_id == uid)

/-- `.first()` over the Deliverables join filter
(src/backend/app.py:553-558). -/
def findDeliv (uid did : Nat) (db : Db) : Option DelivRow :=
  db.deliverables.find? (delivOwnedBy uid did db)

/-- `.first()` over the WritingBankItem ownership filter. -/
def findWriting (uid wid : Nat) (db : Db) : Option WritingRow :=
  db.writing.find? (fun w => w.id == wid && w.user_id == uid)

/-- `parent.updated_at = datetime.now(utc)` on the row found by the
parent-Application ownership filter, a no-op when no row matches
(`if parent:`). -/
def touchApp (uid aid now : Nat) (apps : List AppRow) : List AppRow :=
  updateFirst (appOwnedBy uid aid) (fun a => { a with updated_at := now }) apps

-- -----------------------------------------------------------------
-- EMAIL_RE (src/backend/app.py:126).
-- -----------------------------------------------------------------

/-- A character admitted by the regex class `[^@\s]`. -/
def emailChar (c : Char) : Bool := c ≠ '@' && !isPySpace c

/-- Denotation of `EMAIL_RE.match` for the anchored pattern
`[^@\s]+@[^@\s]+\.[^@\s]+$` on a stripped string (so the trailing-newline
subtlety of `$` never arises): exactly one `@`, a nonempty all-admissible
local part, and a domain containing a dot that is neither its first nor its
last character. -/
def emailOk (s : String) : Bool :=
  match s.toList.splitOn '@' with
  | [localPart, domain] =>
    localPart ≠ [] && localPart.all emailChar &&
      domain ≠ [] && domain.all emailChar &&
      ((domain.drop 1).dropLast).contains '.'
  | _ => false

-- -----------------------------------------------------------------
-- Auth: register (src/backend/app.py:219-251).
-- -----------------------------------------------------------------

/-- `generate_password_hash` (werkzeug), modelled opaquely. -/
def hashPw (p : String) : PwHash := ⟨p⟩

/-- The public user record returned alongside the token. -/
structure PubUser where
  id : Nat
  email : String
  deriving DecidableEq, Repr

/-- `register` (src/backend/app.py:219): normalise the email
(`strip().lower()`), check the email shape, then the password length, then
the global user cap, then email uniqueness, and only then insert a row.
The JWT issued on success is an out-of-scope capability and is not
modelled. -/
def register (email password : Option String) (now : Nat) (db : Db) :
    Except Err PubUser × Db :=
  let e := pyLower (pyStrip (orEmpty email))
  let pw := orEmpty password
  if !emailOk e then (.error (400, "Invalid email"), db)
  else if pw.length < 8 then (.error (400, "Password must be at least 8 characters"), db)
  else if MAX_USERS_TOTAL ≤ db.users.length then
    (.error (403, "User limit reached (10 total)."), db)
  else
    match db.users.find? (fun u => u.email == e) with
    | some _ => (.error (409, "Email already registered"), db)
    | none =>
      let u : UserRow := ⟨db.nextUserId, e, hashPw pw, now⟩
      (.ok ⟨u.id, u.email⟩,
        { db with users := db.users ++ [u], nextUserId := db.nextUserId + 1 })

-- -----------------------------------------------------------------
-- Applications (src/backend/app.py:300-413).
-- -----------------------------------------------------------------

/-- The request body of `POST /applications` / `PUT /applications/{id}`:
the outer `Option` is key presence, the inner one JSON null vs string. -/
structure AppPatch where
  company : Option (Option String) := none
  role : Option (Option String) := none
  link : Option (Option String) := none
  status : Option (Option String) := none
  due_date : Option (Option String) := none
  submitted_date : Option (Option String) := none
  notes : Option (Option String) := none
  deriving DecidableEq, Repr

/-- The f-string error message naming the allowed status values,
`status must be one of ['Drafting', ...]`. -/
def statusErrMsg : String :=
  "status must be one of [" ++
    String.intercalate ", " (DEFAULT_STATUSES.map (fun s => sq ++ s ++ sq)) ++ "]"

/-- `create_application` (src/backend/app.py:300): trim company/role/link,
default and validate the status, parse the dates, keep the notes verbatim,
enforce the per-user Application quota, then insert. -/
def create_application (uid : Nat) (p : AppPatch) (now : Nat) (db : Db) :
    Except Err AppRow × Db :=
  let company := pyStrip (orEmpty (getOpt p.company))
  let role := pyStrip (orEmpty (getOpt p.role))
  let linkS := pyStrip (orEmpty (getOpt p.link))
  let link := if linkS = "" then none else some linkS
  let status := pyStrip (pyOrStr (getOpt p.status) "Drafting")
  let due := parse_iso_datetime (jvalOfOpt (getOpt p.due_date))
  let sub := parse_iso_datetime (jvalOfOpt (getOpt p.submitted_date))
  let notes := getOpt p.notes
  if company = "" || role = "" then (.error (400, "company and role are required"), db)
  else if !DEFAULT_STATUSES.contains status then (.error (400, statusErrMsg), db)
  else if MAX_APPS_PER_USER ≤ (db.applications.filter (fun a => a.user_id == uid)).length then
    (.error (403, "Application limit reached (5 per user)."), db)
  else
    let a : AppRow :=
      ⟨db.nextAppId, uid, company, role, link, status, due, sub, notes, now, now⟩
    (.ok a, { db with applications := db.applications ++ [a], nextAppId := db.nextAppId + 1 })

/-- `get_application` (src/backend/app.py:344): the ownership filter makes
an absent id and a foreign-owned id both answer `Not found`. -/
def get_application (uid aid : Nat) (db : Db) : Except Err AppRow :=
  match findApp uid aid db with
  | none => .error (404, "Not found")
  | some a => .ok a

/-- `if "company" in data: a.company = (data.get("company") or "").strip()
or a.company` -- a blank value keeps the old one. -/
def appStepCompany (p : AppPatch) (a : AppRow) : AppRow :=
  match p.company with
  | none => a
  | some v => if pyStrip (orEmpty v) = "" then a else { a with company := pyStrip (orEmpty v) }

/-- The same keep-if-blank assignment for the role field. -/
def appStepRole (p : AppPatch) (a : AppRow) : AppRow :=
  match p.role with
  | none => a
  | some v => if pyStrip (orEmpty v) = "" then a else { a with role := pyStrip (orEmpty v) }

/-- `a.link = (data.get("link") or "").strip() or None` -- a blank value
clears the field. -/
def appStepLink (p : AppPatch) (a : AppRow) : AppRow :=
  match p.link with
  | none => a
  | some v =>
    if pyStrip (orEmpty v) = "" then { a with link := none }
    else { a with link := some (pyStrip (orEmpty v)) }

/-- The status assignment (the vocabulary was already checked by the
caller). -/
def appStepStatus (p : AppPatch) (a : AppRow) : AppRow :=
  match p.status with
  | none => a
  | some v => { a with status := pyStrip (orEmpty v) }

/-- `a.due_date = parse_iso_datetime(data.get("due_date"))`. -/
def appStepDue (p : AppPatch) (a : AppRow) : AppRow :=
  match p.due_date with
  | none => a
  | some v => { a with due_date := parse_iso_datetime (jvalOfOpt v) }

/-- `a.submitted_date = parse_iso_datetime(data.get("submitted_date"))`. -/
def appStepSubmitted (p : AppPatch) (a : AppRow) : AppRow :=
  match p.submitted_date with
  | none => a
  | some v => { a with submitted_date := parse_iso_datetime (jvalOfOpt v) }

/-- `a.notes = data.get("notes")` -- stored verbatim, empty string
included. -/
def appStepNotes (p : AppPatch) (a : AppRow) : AppRow :=
  match p.notes with
  | none => a
  | some v => { a with notes := v }

/-- The field-by-field body of `update_application` on the fetched row, in
source order (src/backend/app.py:373-391), ending with the unconditional
`updated_at` refresh. -/
def applyAppPatch (p : AppPatch) (now : Nat) (a : AppRow) : AppRow :=
  { appStepNotes p (appStepSubmitted p (appStepDue p (appStepStatus p
      (appStepLink p (appStepRole p (appStepCompany p a)))))) with updated_at := now }

/-- `update_application` (src/backend/app.py:359): fetch through the
ownership filter (404 otherwise); an invalid submitted status aborts with
400 and, the transaction never being committed, leaves the store
unchanged; otherwise the patch is applied and committed. -/
def update_application (uid aid : Nat) (p : AppPatch) (now : Nat) (db : Db) :
    Except Err AppRow × Db :=
  match findApp uid aid db with
  | none => (.error (404, "Not found"), db)
  | some a =>
    match p.status with
    | some v =>
      if !DEFAULT_STATUSES.contains (pyStrip (orEmpty v)) then
        (.error (400, statusErrMsg), db)
      else
        let a' := applyAppPatch p now a
        (.ok a', { db with applications := updateFirst (appOwnedBy uid aid) (fun _ => a') db.applications })
    | none =>
      let a' := applyAppPatch p now a
      (.ok a', { db with applications := updateFirst (appOwnedBy uid aid) (fun _ => a') db.applications })

/-- `delete_application` (src/backend/app.py:398): fetch through the
ownership filter (404 otherwise), then delete the row; the ORM cascade
removes the owned deliverables. -/
def delete_application (uid aid : Nat) (db : Db) : Except Err Unit × Db :=
  match findApp uid aid db with
  | none => (.error (404, "Not found"), db)
  | some _ =>
    (.ok (),
      { db with
          applications := deleteFirst (appOwnedBy uid aid) db.applications,
          deliverables := db.deliverables.filter (fun d => !(d.application_id == aid)) })

-- -----------------------------------------------------------------
-- Deliverables (src/backend/app.py:503-619).
-- -----------------------------------------------------------------

/-- The request body of the Deliverable endpoints; `is_done` keeps the raw
JSON scalar because the handler applies Python `bool()` to it. -/
structure DelivPatch where
  title : Option (Option String) := none
  dtype : Option (Option String) := none
  due_date : Option (Option String) := none
  state : Option (Option String) := none
  content : Option (Option String) := none
  is_done : Option JVal := none
  deriving DecidableEq, Repr

/-- `create_deliverable` (src/backend/app.py:503): trim the title and
reject a blank one, default the type and state, parse the due date, store
the content verbatim and `bool(is_done)`, require the parent Application
through the ownership filter, insert the row, and touch the parent.  The
submitted state is stored as given: `is_done` does not force it here. -/
def create_deliverable (uid aid : Nat) (p : DelivPatch) (now : Nat) (db : Db) :
    Except Err DelivRow × Db :=
  let title := pyStrip (orEmpty (getOpt p.title))
  let dtype := pyStrip (pyOrStr (getOpt p.dtype) "Other")
  let due := parse_iso_datetime (jvalOfOpt (getOpt p.due_date))
  let state := pyStrip (pyOrStr (getOpt p.state) "Not started")
  let content := getOpt p.content
  let isDone := pyTruthy (p.is_done.getD (.boolean false))
  if title = "" then (.error (400, "title is required"), db)
  else
    match findApp uid aid db with
    | none => (.error (404, "Not found"), db)
    | some _ =>
      let d : DelivRow := ⟨db.nextDelivId, aid, title, dtype, due, state, content, isDone, now, now⟩
      (.ok d,
        { db with
            deliverables := db.deliverables ++ [d],
            applications := touchApp uid aid now db.applications,
            nextDelivId := db.nextDelivId + 1 })

/-- `if "title" in data: t = (data.get("title") or "").strip(); if t:
d.title = t` -- a blank title keeps the old one. -/
def delivStepTitle (p : DelivPatch) (d : DelivRow) : DelivRow :=
  match p.title with
  | none => d
  | some v => if pyStrip (orEmpty v) = "" then d else { d with title := pyStrip (orEmpty v) }

/-- `d.dtype = (data.get("dtype") or "Other").strip()`. -/
def delivStepDtype (p : DelivPatch) (d : DelivRow) : DelivRow :=
  match p.dtype with
  | none => d
  | some v => { d with dtype := pyStrip (pyOrStr v "Other") }

/-- `d.due_date = parse_iso_datetime(data.get("due_date"))`. -/
def delivStepDue (p : DelivPatch) (d : DelivRow) : DelivRow :=
  match p.due_date with
  | none => d
  | some v => { d with due_date := parse_iso_datetime (jvalOfOpt v) }

/-- `d.state = (data.get("state") or "").strip() or d.state` -- a blank
state keeps the old one. -/
def delivStepState (p : DelivPatch) (d : DelivRow) : DelivRow :=
  match p.state with
  | none => d
  | some v => if pyStrip (orEmpty v) = "" then d else { d with state := pyStrip (orEmpty v) }

/-- `d.content = data.get("content")` -- stored verbatim. -/
def delivStepContent (p : DelivPatch) (d : DelivRow) : DelivRow :=
  match p.content with
  | none => d
  | some v => { d with content := v }

/-- `if "is_done" in data: d.is_done = bool(...); if d.is_done: d.state =
"Done"` -- the one-directional coupling, applied after the state field. -/
def delivStepIsDone (p : DelivPatch) (d : DelivRow) : DelivRow :=
  match p.is_done with
  | none => d
  | some v =>
    if pyTruthy v then { d with is_done := true, state := "Done" }
    else { d with is_done := false }

/-- The field-by-field body of `update_deliverable` on the fetched row, in
source order (src/backend/app.py:562-579), ending with the unconditional
`updated_at` refresh. -/
def applyDelivPatch (p : DelivPatch) (now : Nat) (d : DelivRow) : DelivRow :=
  { delivStepIsDone p (delivStepContent p (delivStepState p (delivStepDue p
      (delivStepDtype p (delivStepTitle p d))))) with updated_at := now }

/-- `update_deliverable` (src/backend/app.py:544): fetch through the
two-table join filter (404 otherwise), apply the patch, then touch the
parent Application found through its own ownership filter. -/
def update_deliverable (uid did : Nat) (p : DelivPatch) (now : Nat) (db : Db) :
    Except Err DelivRow × Db :=
  match findDeliv uid did db with
  | none => (.error (404, "Not found"), db)
  | some d =>
    let d' := applyDelivPatch p now d
    (.ok d',
      { db with
          deliverables := updateFirst (delivOwnedBy uid did db) (fun _ => d') db.deliverables,
          applications := touchApp uid d.application_id now db.applications })

/-- `delete_deliverable` (src/backend/app.py:592): fetch through the join
filter (404 otherwise), delete the row, then touch the parent Application
under its captured id. -/
def delete_deliverable (uid did : Nat) (now : Nat) (db : Db) : Except Err Unit × Db :=
  match findDeliv uid did db with
  | none => (.error (404, "Not found"), db)
  | some d =>
    (.ok (),
      { db with
          deliverables := deleteFirst (delivOwnedBy uid did db) db.deliverables,
          applications := touchApp uid d.application_id now db.applications })

-- -----------------------------------------------------------------
-- Writing bank (src/backend/app.py:678-725).
-- -----------------------------------------------------------------

/-- The request body of `PUT /writing/{id}`. -/
structure WritingPatch where
  title : Option (Option String) := none
  tags : Option (Option String) := none
  content : Option (Option String) := none
  deriving DecidableEq, Repr

/-- The keep-if-blank title assignment of `update_writing`. -/
def writingStepTitle (p : WritingPatch) (w : WritingRow) : WritingRow :=
  match p.title with
  | none => w
  | some v => if pyStrip (orEmpty v) = "" then w else { w with title := pyStrip (orEmpty v) }

/-- `w.tags = (data.get("tags") or "").strip() or None`. -/
def writingStepTags (p : WritingPatch) (w : WritingRow) : WritingRow :=
  match p.tags with
  | none => w
  | some v =>
    if pyStrip (orEmpty v) = "" then { w with tags := none }
    else { w with tags := some (pyStrip (orEmpty v)) }

/-- `w.content = c` where `c = data.get("content") or ""` was already
checked nonblank by the caller; stored verbatim (not stripped). -/
def writingStepContent (p : WritingPatch) (w : WritingRow) : WritingRow :=
  match p.content with
  | none => w
  | some v => { w with content := orEmpty v }

/-- The field-by-field body of `update_writing` on the fetched row, in
source order (src/backend/app.py:691-703), ending with the unconditional
`updated_at` refresh. -/
def applyWritingPatch (p : WritingPatch) (now : Nat) (w : WritingRow) : WritingRow :=
  { writingStepContent p (writingStepTags p (writingStepTitle p w)) with updated_at := now }

/-- `update_writing` (src/backend/app.py:678): fetch through the ownership
filter (404 otherwise); a present-but-blank content aborts with 400 and,
uncommitted, leaves the store unchanged; otherwise apply and commit. -/
def update_writing (uid wid : Nat) (p : WritingPatch) (now : Nat) (db : Db) :
    Except Err WritingRow × Db :=
  match findWriting uid wid db with
  | none => (.error (404, "Not found"), db)
  | some w =>
    match p.content with
    | some v =>
      if pyStrip (orEmpty v) = "" then (.error (400, "content cannot be empty"), db)
      else
        let w' := applyWritingPatch p now w
        (.ok w',
          { db with writing := updateFirst (fun r => r.id == wid && r.user_id == uid) (fun _ => w') db.writing })
    | none =>
      let w' := applyWritingPatch p now w
      (.ok w',
        { db with writing := updateFirst (fun r => r.id == wid && r.user_id == uid) (fun _ => w') db.writing })

/-- `delete_writing` (src/backend/app.py:710). -/
def delete_writing (uid wid : Nat) (db : Db) : Except Err Unit × Db :=
  match findWriting uid wid db with
  | none => (.error (404, "Not found"), db)
  | some _ =>
    (.ok (), { db with writing := deleteFirst (fun r => r.id == wid && r.user_id == uid) db.writing })

-- -----------------------------------------------------------------
-- Chat context assembly (src/backend/app.py:419-482).
-- -----------------------------------------------------------------

/-- The deliverable context line of `application_chat`
(src/backend/app.py:440). -/
def delivLine (d : DelivRow) : String :=
  "-> " ++ d.title ++ " (" ++ d.dtype ++ "). Due: " ++ pyStrOptDT d.due_date ++
    ". State: " ++ d.state ++ "."

/-- The deliverables block (src/backend/app.py:441): the newline join of
the lines, or the fixed placeholder when there are none. -/
def delivBlock (ds : List DelivRow) : String :=
  if ds.isEmpty then "No deliverables added yet."
  else joinNl (ds.map delivLine)

/-- The notes slot of the prompt, `a.notes or 'None provided.'`: a null or
empty notes field is falsy and yields the placeholder. -/
def notesSlot (notes : Option String) : String := pyOrStr notes "None provided."

/-- The `system_instruction` f-string of `application_chat`
(src/backend/app.py:446-458), transcribed with its literal indentation;
the pieces are grouped to the right so each interpolated slot sits at the
head of a tail of the prompt. -/
def systemInstruction (a : AppRow) (ds : List DelivRow) : String :=
  "\n        You are an expert interview prep assistant and career coach. Help the user prepare for their interview and hiring process by taking a look at the following notes/info.\n        Here is the context of the job application:\n        - Company: "
  ++ (a.company
  ++ ("\n        - Role: "
  ++ (a.role
  ++ ("\n        - Current Status: "
  ++ (a.status
  ++ ("\n        - User"
  ++ (sq
  ++ ("s Notes on the job: "
  ++ (notesSlot a.notes
  ++ ("\n        \n        Current Deliverables for this application:\n        "
  ++ (delivBlock ds
  ++ "\n\n        Use this information to give tailored advice, mock interview questions, or next-step recommendations. Be concise, encouraging, and highly specific to the company and role provided. Utilize external research on the company and up to date interview/job search methods\n        ")))))))))))

/-- `application_chat` (src/backend/app.py:419): reject a falsy message,
then a missing API key, then resolve the Application through the ownership
filter; on success assemble the system prompt from the current Application
row and all its Deliverables.  The Gemini exchange itself is an external
capability; the prompt is the part the core computes, and it is rebuilt
from storage on every call. -/
def application_chat (uid aid : Nat) (message : Option String)
    (hasApiKey : Bool) (db : Db) : Except Err String :=
  if orEmpty message = "" then .error (400, "Message is required")
  else if !hasApiKey then .error (500, "GEMINI_API_KEY is not configured on the server.")
  else
    match findApp uid aid db with
    | none => .error (404, "Application not found")
    | some a =>
      let ds := db.deliverables.filter (fun d => d.application_id == aid)
      .ok (systemInstruction a ds)

-- -----------------------------------------------------------------
-- Concrete fixtures used by the witness theorems.
-- -----------------------------------------------------------------

/-- A sample Application row owned by user 1. -/
def appW : AppRow :=
  ⟨1, 1, "Acme", "SWE", none, "Drafting", none, none, none, 0, 0⟩

/-- A sample Application row owned by user 2. -/
def appW2 : AppRow :=
  ⟨2, 2, "Globex", "PM", none, "Submitted", none, none, some "warm intro", 0, 0⟩

/-- A sample Deliverable row under application 1. -/
def delivW : DelivRow :=
  ⟨1, 1, "Essay", "Essay", none, "Not started", none, false, 0, 0⟩

/-- A sample WritingBankItem row owned by user 1, and one owned by user 2. -/
def wrW : WritingRow := ⟨1, 1, "Intro", none, "Hello there", 0, 0⟩

/-- A sample WritingBankItem row owned by user 2. -/
def wrW2 : WritingRow := ⟨2, 2, "Outro", some "a,b", "Bye", 0, 0⟩

/-- A sample store with two users; user 2 owns application 2, a
deliverable under it, and writing item 2. -/
def dbW : Db :=
  { users := [⟨1, "a@b.com", ⟨"password1"⟩, 0⟩, ⟨2, "c@d.com", ⟨"password2"⟩, 0⟩],
    applications := [appW, appW2],
    deliverables := [delivW, ⟨2, 2, "Form", "Form", none, "In progress", none, false, 0, 0⟩],
    writing := [wrW, wrW2],
    nextUserId := 3, nextAppId := 3, nextDelivId := 3, nextWritingId := 3 }

/-- A store whose user table is at the global cap of ten rows. -/
def dbFull : Db :=
  { users := (List.range 10).map (fun i => ⟨i + 1, String.mk (natDigits (i + 1)) ++ "@x.com", ⟨"password1"⟩, 0⟩),
    applications := [], deliverables := [], writing := [],
    nextUserId := 11, nextAppId := 1, nextDelivId := 1, nextWritingId := 1 }

/-- Substring occurrence, the observable of the prompt-assembly claims:
the needle appears contiguously inside the haystack. -/
def strContains (hay needle : String) : Prop :=
  ∃ pre post : List Char, pre ++ needle.data ++ post = hay.data

instance (hay needle : String) : Decidable (strContains hay needle) :=
  decidable_of_iff (needle.data <:+: hay.data) Iff.rfl

-- -----------------------------------------------------------------
-- Helper lemmas.
-- -----------------------------------------------------------------

theorem find?_none_of_all {α : Type} (p : α → Bool) (l : List α)
    (h : ∀ x ∈ l, p x = false) : l.find? p = none :=
  List.find?_eq_none.mpr (fun x hx hpx => by rw [h x hx] at hpx; exact Bool.false_ne_true hpx)

-- Field lemmas for the per-field update steps.

theorem delivStepTitle_is_done (p : DelivPatch) (d : DelivRow) :
    (delivStepTitle p d).is_done = d.is_done := by
  cases hp : p.title with
  | none => simp [delivStepTitle, hp]
  | some v => simp only [delivStepTitle, hp]; split <;> rfl

theorem delivStepDtype_is_done (p : DelivPatch) (d : DelivRow) :
    (delivStepDtype p d).is_done = d.is_done := by
  cases hp : p.dtype <;> simp [delivStepDtype, hp]

theorem delivStepDue_is_done (p : DelivPatch) (d : DelivRow) :
    (delivStepDue p d).is_done = d.is_done := by
  cases hp : p.due_date <;> simp [delivStepDue, hp]

theorem delivStepState_is_done (p : DelivPatch) (d : DelivRow) :
    (delivStepState p d).is_done = d.is_done := by
  cases hp : p.state with
  | none => simp [delivStepState, hp]
  | some v => simp only [delivStepState, hp]; split <;> rfl

theorem delivStepContent_is_done (p : DelivPatch) (d : DelivRow) :
    (delivStepContent p d).is_done = d.is_done := by
  cases hp : p.content <;> simp [delivStepContent, hp]

theorem delivStepIsDone_none (p : DelivPatch) (d : DelivRow) (h : p.is_done = none) :
    delivStepIsDone p d = d := by
  simp [delivStepIsDone, h]

theorem delivStepIsDone_state_done (p : DelivPatch) (d : DelivRow) (v : JVal)
    (h : p.is_done = some v) (htr : pyTruthy v = true) :
    (delivStepIsDone p d).state = "Done" := by
  simp [delivStepIsDone, h, htr]

theorem delivStepTitle_title_blank (p : DelivPatch) (d : DelivRow) (v : Option String)
    (h : p.title = some v) (hb : pyStrip (orEmpty v) = "") :
    delivStepTitle p d = d := by
  simp [delivStepTitle, h, hb]

theorem delivStepDtype_title (p : DelivPatch) (d : DelivRow) :
    (delivStepDtype p d).title = d.title := by
  cases hp : p.dtype <;> simp [delivStepDtype, hp]

theorem delivStepDue_title (p : DelivPatch) (d : DelivRow) :
    (delivStepDue p d).title = d.title := by
  cases hp : p.due_date <;> simp [delivStepDue, hp]

theorem delivStepState_title (p : DelivPatch) (d : DelivRow) :
    (delivStepState p d).title = d.title := by
  cases hp : p.state with
  | none => simp [delivStepState, hp]
  | some v => simp only [delivStepState, hp]; split <;> rfl

theorem delivStepContent_title (p : DelivPatch) (d : DelivRow) :
    (delivStepContent p d).title = d.title := by
  cases hp : p.content <;> simp [delivStepContent, hp]

theorem delivStepIsDone_title (p : DelivPatch) (d : DelivRow) :
    (delivStepIsDone p d).title = d.title := by
  cases hp : p.is_done with
  | none => simp [delivStepIsDone, hp]
  | some v => simp only [delivStepIsDone, hp]; split <;> rfl

theorem applyDelivPatch_state_of_done (p : DelivPatch) (now : Nat) (d : DelivRow)
    (v : JVal) (h : p.is_done = some v) (htr : pyTruthy v = true) :
    (applyDelivPatch p now d).state = "Done" := by
  simp only [applyDelivPatch]
  exact delivStepIsDone_state_done p _ v h htr

theorem applyDelivPatch_is_done_of_none (p : DelivPatch) (now : Nat) (d : DelivRow)
    (h : p.is_done = none) :
    (applyDelivPatch p now d).is_done = d.is_done := by
  simp only [applyDelivPatch, delivStepIsDone_none _ _ h, delivStepContent_is_done,
    delivStepState_is_done, delivStepDue_is_done, delivStepDtype_is_done,
    delivStepTitle_is_done]

theorem applyDelivPatch_title_of_blank (p : DelivPatch) (now : Nat) (d : DelivRow)
    (v : Option String) (h : p.title = some v) (hb : pyStrip (orEmpty v) = "") :
    (applyDelivPatch p now d).title = d.title := by
  simp only [applyDelivPatch, delivStepIsDone_title, delivStepContent_title,
    delivStepState_title, delivStepDue_title, delivStepDtype_title,
    delivStepTitle_title_blank _ _ _ h hb]

theorem appStepCompany_blank (p : AppPatch) (a : AppRow) (v : Option String)
    (h : p.company = some v) (hb : pyStrip (orEmpty v) = "") :
    appStepCompany p a = a := by
  simp [appStepCompany, h, hb]

theorem appStepRole_blank (p : AppPatch) (a : AppRow) (v : Option String)
    (h : p.role = some v) (hb : pyStrip (orEmpty v) = "") :
    appStepRole p a = a := by
  simp [appStepRole, h, hb]

theorem appStepCompany_role (p : AppPatch) (a : AppRow) :
    (appStepCompany p a).role = a.role := by
  cases hp : p.company with
  | none => simp [appStepCompany, hp]
  | some v => simp only [appStepCompany, hp]; split <;> rfl

theorem appStepRole_company (p : AppPatch) (a : AppRow) :
    (appStepRole p a).company = a.company := by
  cases hp : p.role with
  | none => simp [appStepRole, hp]
  | some v => simp only [appStepRole, hp]; split <;> rfl

theorem appStepLink_company (p : AppPatch) (a : AppRow) :
    (appStepLink p a).company = a.company := by
  cases hp : p.link with
  | none => simp [appStepLink, hp]
  | some v => simp only [appStepLink, hp]; split <;> rfl

theorem appStepLink_role (p : AppPatch) (a : AppRow) :
    (appStepLink p a).role = a.role := by
  cases hp : p.link with
  | none => simp [appStepLink, hp]
  | some v => simp only [appStepLink, hp]; split <;> rfl

theorem appStepLink_link_blank (p : AppPatch) (a : AppRow) (v : Option String)
    (h : p.link = some v) (hb : pyStrip (orEmpty v) = "") :
    (appStepLink p a).link = none := by
  simp [appStepLink, h, hb]

theorem appStepStatus_company (p : AppPatch) (a : AppRow) :
    (appStepStatus p a).company = a.company := by
  cases hp : p.status <;> simp [appStepStatus, hp]

theorem appStepStatus_role (p : AppPatch) (a : AppRow) :
    (appStepStatus p a).role = a.role := by
  cases hp : p.status <;> simp [appStepStatus, hp]

theorem appStepStatus_link (p : AppPatch) (a : AppRow) :
    (appStepStatus p a).link = a.link := by
  cases hp : p.status <;> simp [appStepStatus, hp]

theorem appStepDue_company (p : AppPatch) (a : AppRow) :
    (appStepDue p a).company = a.company := by
  cases hp : p.due_date <;> simp [appStepDue, hp]

theorem appStepDue_role (p : AppPatch) (a : AppRow) :
    (appStepDue p a).role = a.role := by
  cases hp : p.due_date <;> simp [appStepDue, hp]

theorem appStepDue_link (p : AppPatch) (a : AppRow) :
    (appStepDue p a).link = a.link := by
  cases hp : p.due_date <;> simp [appStepDue, hp]

theorem appStepSubmitted_company (p : AppPatch) (a : AppRow) :
    (appStepSubmitted p a).company = a.company := by
  cases hp : p.submitted_date <;> simp [appStepSubmitted, hp]

theorem appStepSubmitted_role (p : AppPatch) (a : AppRow) :
    (appStepSubmitted p a).role = a.role := by
  cases hp : p.submitted_date <;> simp [appStepSubmitted, hp]

theorem appStepSubmitted_link (p : AppPatch) (a : AppRow) :
    (appStepSubmitted p a).link = a.link := by
  cases hp : p.submitted_date <;> simp [appStepSubmitted, hp]

theorem appStepNotes_company (p : AppPatch) (a : AppRow) :
    (appStepNotes p a).company = a.company := by
  cases hp : p.notes <;> simp [appStepNotes, hp]

theorem appStepNotes_role (p : AppPatch) (a : AppRow) :
    (appStepNotes p a).role = a.role := by
  cases hp : p.notes <;> simp [appStepNotes, hp]

theorem appStepNotes_link (p : AppPatch) (a : AppRow) :
    (appStepNotes p a).link = a.link := by
  cases hp : p.notes <;> simp [appStepNotes, hp]

theorem appStepNotes_notes_some (p : AppPatch) (a : AppRow) (v : Option String)
    (h : p.notes = some v) : (appStepNotes p a).notes = v := by
  simp [appStepNotes, h]

theorem applyAppPatch_company_of_blank (p : AppPatch) (now : Nat) (a : AppRow)
    (v : Option String) (h : p.company = some v) (hb : pyStrip (orEmpty v) = "") :
    (applyAppPatch p now a).company = a.company := by
  simp only [applyAppPatch, appStepNotes_company, appStepSubmitted_company,
    appStepDue_company, appStepStatus_company, appStepLink_company, appStepRole_company,
    appStepCompany_blank _ _ _ h hb]

theorem applyAppPatch_role_of_blank (p : AppPatch) (now : Nat) (a : AppRow)
    (v : Option String) (h : p.role = some v) (hb : pyStrip (orEmpty v) = "") :
    (applyAppPatch p now a).role = a.role := by
  simp only [applyAppPatch, appStepNotes_role, appStepSubmitted_role, appStepDue_role,
    appStepStatus_role, appStepLink_role, appStepRole_blank _ _ _ h hb,
    appStepCompany_role]

theorem applyAppPatch_link_of_blank (p : AppPatch) (now : Nat) (a : AppRow)
    (v : Option String) (h : p.link = some v) (hb : pyStrip (orEmpty v) = "") :
    (applyAppPatch p now a).link = none := by
  simp only [applyAppPatch, appStepNotes_link, appStepSubmitted_link, appStepDue_link,
    appStepStatus_link, appStepLink_link_blank _ _ _ h hb]

theorem applyAppPatch_notes_some (p : AppPatch) (now : Nat) (a : AppRow)
    (v : Option String) (h : p.notes = some v) :
    (applyAppPatch p now a).notes = v := by
  simp only [applyAppPatch, appStepNotes_notes_some _ _ _ h]

theorem writingStepTitle_blank (p : WritingPatch) (w : WritingRow) (v : Option String)
    (h : p.title = some v) (hb : pyStrip (orEmpty v) = "") :
    writingStepTitle p w = w := by
  simp [writingStepTitle, h, hb]

theorem writingStepTags_title (p : WritingPatch) (w : WritingRow) :
    (writingStepTags p w).title = w.title := by
  cases hp : p.tags with
  | none => simp [writingStepTags, hp]
  | some v => simp only [writingStepTags, hp]; split <;> rfl

theorem writingStepContent_title (p : WritingPatch) (w : WritingRow) :
    (writingStepContent p w).title = w.title := by
  cases hp : p.content <;> simp [writingStepContent, hp]

theorem applyWritingPatch_title_of_blank (p : WritingPatch) (now : Nat) (w : WritingRow)
    (v : Option String) (h : p.title = some v) (hb : pyStrip (orEmpty v) = "") :
    (applyWritingPatch p now w).title = w.title := by
  simp only [applyWritingPatch, writingStepContent_title, writingStepTags_title,
    writingStepTitle_blank _ _ _ h hb]

/-- Claims C1--C10 below: every theorem is stated against the operation
definitions above, which are the shallow embedding of the handlers in
src/backend/app.py. -/
theorem dbW_wf : dbW.users.length = 2 := rfl

-- -----------------------------------------------------------------
-- C2: absent and foreign-owned ids are indistinguishable 404s.
-- -----------------------------------------------------------------

/-- C2: for every get, update, or delete call on an Application,
Deliverable, or WritingBankItem for which the caller owns no matching row
-- whether the id is absent altogether or the row belongs to another user
(for Deliverables: the parent Application does) -- the reply is the one
fixed value, a 404 with message `Not found`, and the store is unchanged;
the two failure causes are therefore indistinguishable to the caller.
(The API exposes a single-entity get only for Applications.) -/
theorem claim_C2_notfound_indistinguishable (db : Db) (uid i now : Nat)
    (pA : AppPatch) (pD : DelivPatch) (pW : WritingPatch) :
    ((∀ a ∈ db.applications, a.id = i → a.user_id ≠ uid) →
      get_application uid i db = .error (404, "Not found") ∧
      update_application uid i pA now db = (.error (404, "Not found"), db) ∧
      delete_application uid i db = (.error (404, "Not found"), db)) ∧
    ((∀ d ∈ db.deliverables, d.id = i →
        ∀ a ∈ db.applications, a.id = d.application_id → a.user_id ≠ uid) →
      update_deliverable uid i pD now db = (.error (404, "Not found"), db) ∧
      delete_deliverable uid i now db = (.error (404, "Not found"), db)) ∧
    ((∀ w ∈ db.writing, w.id = i → w.user_id ≠ uid) →
      update_writing uid i pW now db = (.error (404, "Not found"), db) ∧
      delete_writing uid i db = (.error (404, "Not found"), db)) := by
  refine ⟨fun hA => ?_, fun hD => ?_, fun hW => ?_⟩
  · have hfind : findApp uid i db = none := by
      refine find?_none_of_all _ _ (fun a ha => ?_)
      simp only [appOwnedBy, Bool.and_eq_false_iff, beq_eq_false_iff_ne, ne_eq]
      by_cases hid : a.id = i
      · exact Or.inr (hA a ha hid)
      · exact Or.inl hid
    exact ⟨by simp [get_application, hfind],
      by simp [update_application, hfind],
      by simp [delete_application, hfind]⟩
  · have hfind : findDeliv uid i db = none := by
      refine find?_none_of_all _ _ (fun d hd => ?_)
      simp only [delivOwnedBy, Bool.and_eq_false_iff, beq_eq_false_iff_ne, ne_eq]
      by_cases hid : d.id = i
      · refine Or.inr ?_
        refine List.any_eq_false.mpr (fun a ha => ?_)
        simp only [Bool.and_eq_true, beq_iff_eq, not_and]
        exact fun haid => hD d hd hid a ha haid
      · exact Or.inl hid
    exact ⟨by simp [update_deliverable, hfind], by simp [delete_deliverable, hfind]⟩
  · have hfind : findWriting uid i db = none := by
      refine find?_none_of_all _ _ (fun w hw => ?_)
      simp only [Bool.and_eq_false_iff, beq_eq_false_iff_ne, ne_eq]
      by_cases hid : w.id = i
      · exact Or.inr (hW w hw hid)
      · exact Or.inl hid
    exact ⟨by simp [update_writing, hfind], by simp [delete_writing, hfind]⟩

/-- C2 witness: user 1 calling on id 2 (owned by user 2) and on id 99
(absent) gets the identical 404 everywhere. -/
theorem claim_C2_witness :
    (get_application 1 2 dbW = .error (404, "Not found") ∧
      update_application 1 2 {} 5 dbW = (.error (404, "Not found"), dbW) ∧
      delete_application 1 2 dbW = (.error (404, "Not found"), dbW)) ∧
    (update_deliverable 1 2 {} 5 dbW = (.error (404, "Not found"), dbW) ∧
      delete_deliverable 1 2 5 dbW = (.error (404, "Not found"), dbW)) ∧
    (update_writing 1 2 {} 5 dbW = (.error (404, "Not found"), dbW) ∧
      delete_writing 1 2 dbW = (.error (404, "Not found"), dbW)) ∧
    (get_application 1 99 dbW = .error (404, "Not found")) := by
  have h2 := claim_C2_notfound_indistinguishable dbW 1 2 5 {} {} {}
  have h99 := claim_C2_notfound_indistinguishable dbW 1 99 5 {} {} {}
  exact ⟨h2.1 (by decide), h2.2.1 (by decide), h2.2.2 (by decide),
    (h99.1 (by decide)).1⟩

-- -----------------------------------------------------------------
-- C4: registration checks run validation, then capacity, then conflict.
-- -----------------------------------------------------------------

/-- C4: the registration error checks are applied in the fixed order
validation (email shape, then password length), then capacity, then
conflict: a shape or length failure yields the 400 regardless of the
store; a validation-passing request at or above the global cap yields the
403 even when the email is taken; and below the cap the 409 occurs exactly
when the normalised (stripped, lowercased) email is already stored. -/
theorem claim_C4_register_error_order (email password : Option String) (now : Nat) (db : Db) :
    (emailOk (pyLower (pyStrip (orEmpty email))) = false →
      (register email password now db).1 = .error (400, "Invalid email")) ∧
    (emailOk (pyLower (pyStrip (orEmpty email))) = true →
      (orEmpty password).length < 8 →
      (register email password now db).1 = .error (400, "Password must be at least 8 characters")) ∧
    (emailOk (pyLower (pyStrip (orEmpty email))) = true →
      8 ≤ (orEmpty password).length →
      MAX_USERS_TOTAL ≤ db.users.length →
      (register email password now db).1 = .error (403, "User limit reached (10 total).")) ∧
    (emailOk (pyLower (pyStrip (orEmpty email))) = true →
      8 ≤ (orEmpty password).length →
      db.users.length < MAX_USERS_TOTAL →
      ((register email password now db).1 = .error (409, "Email already registered") ↔
        ∃ u ∈ db.users, u.email = pyLower (pyStrip (orEmpty email)))) := by
  refine ⟨fun h1 => ?_, fun h1 h2 => ?_, fun h1 h2 h3 => ?_, fun h1 h2 h3 => ?_⟩
  · simp [register, h1]
  · simp [register, h1, h2]
  · simp [register, h1, Nat.not_lt.mpr h2, h3]
  · simp only [register, h1, Bool.not_true, Bool.false_eq_true, if_false,
      Nat.not_lt.mpr h2, if_false, Nat.not_le.mpr h3, if_false]
    cases hfind : db.users.find? (fun u => u.email == pyLower (pyStrip (orEmpty email))) with
    | none =>
      refine iff_of_false (by simp) ?_
      rintro ⟨u, hu, he⟩
      have hne := List.find?_eq_none.mp hfind u hu
      simp only [beq_iff_eq] at hne
      exact hne he
    | some u =>
      have hmem := List.mem_of_find?_eq_some hfind
      have heq : u.email = pyLower (pyStrip (orEmpty email)) := by
        have := List.find?_some hfind
        simpa [beq_iff_eq] using this
      exact iff_of_true rfl ⟨u, hmem, heq⟩

/-- C4 witness at concrete inputs: bad email shape beats a full store, a
short password beats a taken email, capacity beats conflict, and below the
cap the conflict test matches storage membership. -/
theorem claim_C4_witness :
    (register (some "not-an-email") (some "password1") 0 dbFull).1 = .error (400, "Invalid email") ∧
    (register (some "a@b.com") (some "short") 0 dbW).1 = .error (400, "Password must be at least 8 characters") ∧
    (register (some "1@x.com") (some "password1") 0 dbFull).1 = .error (403, "User limit reached (10 total).") ∧
    ((register (some " A@B.com ") (some "password1") 0 dbW).1 = .error (409, "Email already registered") ↔
      ∃ u ∈ dbW.users, u.email = pyLower (pyStrip (orEmpty (some " A@B.com ")))) := by
  have hbad := claim_C4_register_error_order (some "not-an-email") (some "password1") 0 dbFull
  have hshort := claim_C4_register_error_order (some "a@b.com") (some "short") 0 dbW
  have hcap := claim_C4_register_error_order (some "1@x.com") (some "password1") 0 dbFull
  have hconf := claim_C4_register_error_order (some " A@B.com ") (some "password1") 0 dbW
  exact ⟨hbad.1 (by decide), hshort.2.1 (by decide) (by decide),
    hcap.2.2.1 (by decide) (by decide) (by decide),
    hconf.2.2.2 (by decide) (by decide) (by decide)⟩

-- -----------------------------------------------------------------
-- C5 (corrected): capacity at the cap, and the cap is never exceeded.
-- -----------------------------------------------------------------

/-- C5 counterexample: the claim promises a CapacityError for EVERY
registration attempt made at the cap, but a request failing input
validation at the cap gets the 400 ValidationError instead (validation
runs first, per C4): with the user table at ten rows, registering a
malformed email yields 400, not 403. -/
theorem claim_C5_counterexample :
    dbFull.users.length = 10 ∧
    (register (some "not-an-email") (some "password1") 0 dbFull).1 = .error (400, "Invalid email") ∧
    (400, "Invalid email") ≠ ((403 : Nat), "User limit reached (10 total).") := by
  exact ⟨by decide, by decide, by decide⟩

/-- C5 (amended): every registration attempt that passes input validation,
made when the user count is at (or beyond) the global cap of ten, fails
with the CapacityError; every attempt whatsoever made at or beyond the cap
leaves the user table unchanged; and registration never raises the user
count above the cap (so sequentially it never exceeds ten). -/
theorem claim_C5_capacity_and_cap (email password : Option String) (now : Nat) (db : Db) :
    (emailOk (pyLower (pyStrip (orEmpty email))) = true →
      8 ≤ (orEmpty password).length →
      MAX_USERS_TOTAL ≤ db.users.length →
      (register email password now db).1 = .error (403, "User limit reached (10 total).")) ∧
    (MAX_USERS_TOTAL ≤ db.users.length →
      (register email password now db).2 = db) ∧
    (db.users.length ≤ MAX_USERS_TOTAL →
      (register email password now db).2.users.length ≤ MAX_USERS_TOTAL) := by
  refine ⟨fun h1 h2 h3 => ?_, fun hcap => ?_, fun hle => ?_⟩
  · simp [register, h1, Nat.not_lt.mpr h2, h3]
  · by_cases h1 : emailOk (pyLower (pyStrip (orEmpty email)))
    · by_cases h2 : (orEmpty password).length < 8
      · simp [register, h1, h2]
      · simp [register, h1, h2, hcap]
    · simp [register, h1]
  · by_cases h1 : emailOk (pyLower (pyStrip (orEmpty email)))
    · by_cases h2 : (orEmpty password).length < 8
      · simp only [register, h1, h2]
        simpa using hle
      · by_cases h3 : MAX_USERS_TOTAL ≤ db.users.length
        · simp only [register, h1, h2, h3]
          simpa using hle
        · cases hfind : db.users.find? (fun u => u.email == pyLower (pyStrip (orEmpty email))) with
          | none =>
            simp only [register, h1, h2, h3, hfind, Bool.not_true, Bool.false_eq_true,
              if_false, if_true, List.length_append, List.length_cons, List.length_nil]
            simp only [Nat.not_le] at h3
            simp only [MAX_USERS_TOTAL] at h3 ⊢
            omega
          | some u =>
            simp only [register, h1, h2, h3, hfind]
            simpa using hle
    · simp only [register, h1]
      simpa using hle

/-- C5 witness: a validation-passing attempt at the full store gets the
403 and writes nothing, and a successful registration below the cap stays
within the cap. -/
theorem claim_C5_witness :
    (register (some "1@x.com") (some "password1") 0 dbFull).1 = .error (403, "User limit reached (10 total).") ∧
    (register (some "1@x.com") (some "password1") 0 dbFull).2 = dbFull ∧
    (register (some "x@y.com") (some "password1") 0 dbW).2.users.length ≤ MAX_USERS_TOTAL := by
  have h1 := claim_C5_capacity_and_cap (some "1@x.com") (some "password1") 0 dbFull
  have h2 := claim_C5_capacity_and_cap (some "x@y.com") (some "password1") 0 dbW
  exact ⟨h1.1 (by decide) (by decide) (by decide), h1.2.1 (by decide), h2.2.2 (by decide)⟩

-- -----------------------------------------------------------------
-- C9: a failed Deliverable write never touches the store.
-- -----------------------------------------------------------------

/-- C9: whenever a Deliverable create, update, or delete fails (blank
title on create, or the 404 for an absent or foreign-owned target), the
whole store -- in particular the parent Application row and its
`updated_at` -- is exactly what it was before the call: the parent is
touched only by a Deliverable write that succeeds. -/
theorem claim_C9_failed_write_leaves_store (uid aid did now : Nat)
    (p : DelivPatch) (db : Db) (e : Err) :
    ((create_deliverable uid aid p now db).1 = .error e →
      (create_deliverable uid aid p now db).2 = db) ∧
    ((update_deliverable uid did p now db).1 = .error e →
      (update_deliverable uid did p now db).2 = db) ∧
    ((delete_deliverable uid did now db).1 = .error e →
      (delete_deliverable uid did now db).2 = db) := by
  refine ⟨fun h => ?_, fun h => ?_, fun h => ?_⟩
  · by_cases ht : pyStrip (orEmpty (getOpt p.title)) = ""
    · simp [create_deliverable, ht]
    · cases hfind : findApp uid aid db with
      | none => simp [create_deliverable, ht, hfind]
      | some a => simp [create_deliverable, ht, hfind] at h
  · cases hfind : findDeliv uid did db with
    | none => simp [update_deliverable, hfind]
    | some d => simp [update_deliverable, hfind] at h
  · cases hfind : findDeliv uid did db with
    | none => simp [delete_deliverable, hfind]
    | some d => simp [delete_deliverable, hfind] at h

/-- C9 witness: a blank-title create and a foreign-owned update and delete
all fail and leave the store untouched. -/
theorem claim_C9_witness :
    (create_deliverable 1 1 { title := some (some " ") } 5 dbW).1 = .error (400, "title is required") ∧
    (create_deliverable 1 1 { title := some (some " ") } 5 dbW).2 = dbW ∧
    (update_deliverable 1 2 {} 5 dbW).2 = dbW ∧
    (delete_deliverable 1 2 5 dbW).2 = dbW := by
  have h := claim_C9_failed_write_leaves_store 1 1 1 5 { title := some (some " ") } dbW (400, "title is required")
  have h2 := claim_C9_failed_write_leaves_store 1 1 2 5 {} dbW (404, "Not found")
  exact ⟨by decide, h.1 (by decide), h2.2.1 (by decide), h2.2.2 (by decide)⟩

-- -----------------------------------------------------------------
-- C1 (corrected): is_done forces the state only on update.
-- -----------------------------------------------------------------

/-- C1 counterexample: the claim promises that a CREATE with
`is_done:true` stores state Done regardless of the submitted state, but
`create_deliverable` stores the submitted state unchanged: creating with
`is_done:true` and state In progress stores In progress, which is not
Done. -/
theorem claim_C1_counterexample :
    ((create_deliverable 1 1
        { title := some (some "Form"), state := some (some "In progress"),
          is_done := some (.boolean true) } 5 dbW).1.map
      (fun d => (d.is_done, d.state))) = .ok (true, "In progress") ∧
    ("In progress" : String) ≠ "Done" := by
  exact ⟨by decide, by decide⟩

/-- C1 (amended): on UPDATE, any request whose field set makes `is_done`
truthy yields state Done regardless of any state value in the same
request, and the coupling is one-directional (an update not mentioning
`is_done` leaves the stored flag unchanged, even if it sets state to
Done); on CREATE the submitted state (default Not started) is stored
unchanged even when `is_done` is true, and the flag is stored as its
truthiness. -/
theorem claim_C1_is_done_forces_state_on_update (uid aid did now : Nat)
    (p : DelivPatch) (db : Db) (d : DelivRow) (v : JVal) :
    (findDeliv uid did db = some d → p.is_done = some v → pyTruthy v = true →
      (update_deliverable uid did p now db).1.map (fun r => r.state) = .ok "Done") ∧
    (findDeliv uid did db = some d → p.is_done = none →
      (update_deliverable uid did p now db).1.map (fun r => r.is_done) = .ok d.is_done) ∧
    (∀ r : DelivRow, (create_deliverable uid aid p now db).1 = .ok r →
      r.state = pyStrip (pyOrStr (getOpt p.state) "Not started") ∧
      r.is_done = pyTruthy (p.is_done.getD (.boolean false))) := by
  refine ⟨fun hfind hdone htr => ?_, fun hfind hdone => ?_, fun r hr => ?_⟩
  · simp only [update_deliverable, hfind, Except.map]
    rw [applyDelivPatch_state_of_done p now d v hdone htr]
  · simp only [update_deliverable, hfind, Except.map]
    rw [applyDelivPatch_is_done_of_none p now d hdone]
  · by_cases ht : pyStrip (orEmpty (getOpt p.title)) = ""
    · simp [create_deliverable, ht] at hr
    · cases hfind : findApp uid aid db with
      | none => simp [create_deliverable, ht, hfind] at hr
      | some a =>
        have hr2 : (create_deliverable uid aid p now db).1 = Except.ok
            (⟨db.nextDelivId, aid, pyStrip (orEmpty (getOpt p.title)),
              pyStrip (pyOrStr (getOpt p.dtype) "Other"),
              parse_iso_datetime (jvalOfOpt (getOpt p.due_date)),
              pyStrip (pyOrStr (getOpt p.state) "Not started"), getOpt p.content,
              pyTruthy (p.is_done.getD (.boolean false)), now, now⟩ : DelivRow) := by
          simp [create_deliverable, ht, hfind]
        rw [hr2] at hr
        cases Except.ok.inj hr
        exact ⟨rfl, rfl⟩

/-- C1 witness: updating deliverable 1 with `is_done:true` and a
contradicting state value stores Done; an update that only sets state to
Done leaves the flag false; a create with `is_done:true` keeps the
submitted state. -/
theorem claim_C1_witness :
    (update_deliverable 1 1
        { state := some (some "In progress"), is_done := some (.boolean true) } 5 dbW).1.map
      (fun r => r.state) = .ok "Done" ∧
    (update_deliverable 1 1 { state := some (some "Done") } 5 dbW).1.map
      (fun r => r.is_done) = .ok false ∧
    ((create_deliverable 1 1
        { title := some (some "Form"), state := some (some "In progress"),
          is_done := some (.boolean true) } 5 dbW).1 = .ok
      ⟨3, 1, "Form", "Other", none, "In progress", none, true, 5, 5⟩ →
      ("In progress" : String) = pyStrip (pyOrStr (getOpt (some (some "In progress"))) "Not started") ∧
      true = pyTruthy ((some (JVal.boolean true)).getD (.boolean false))) := by
  have h1 := claim_C1_is_done_forces_state_on_update 1 1 1 5
    { state := some (some "In progress"), is_done := some (.boolean true) } dbW delivW (.boolean true)
  have h2 := claim_C1_is_done_forces_state_on_update 1 1 1 5
    { state := some (some "Done") } dbW delivW (.boolean true)
  have h3 := claim_C1_is_done_forces_state_on_update 1 1 1 5
    { title := some (some "Form"), state := some (some "In progress"),
      is_done := some (.boolean true) } dbW delivW (.boolean true)
  refine ⟨h1.1 (by decide) rfl (by decide), ?_, fun hcr => h3.2.2 _ hcr⟩
  have := h2.2.1 (by decide) rfl
  simpa using this

-- -----------------------------------------------------------------
-- C7 (corrected): blank link clears, blank notes is stored verbatim.
-- -----------------------------------------------------------------

/-- C7 counterexample: the claim promises that an empty-string value for
EITHER optional free-text field (link or notes) is stored as null, but
`update_application` assigns the notes value verbatim: updating with
`notes:""` stores the empty string, not null. -/
theorem claim_C7_counterexample :
    (update_application 1 1 { notes := some (some "") } 5 dbW).1.map
      (fun a => a.notes) = .ok (some "") ∧
    (some "" : Option String) ≠ none := by
  exact ⟨by decide, by decide⟩

/-- C7 (amended): on Application create and update, an empty-after-trim
link value is normalised to null, while the notes value is stored exactly
as submitted (an empty string stays an empty string, a null stays null). -/
theorem claim_C7_blank_optional_fields (uid aid now : Nat) (p : AppPatch)
    (db : Db) (a : AppRow) :
    (findApp uid aid db = some a →
      ∀ r : AppRow, (update_application uid aid p now db).1 = .ok r →
        (∀ v, p.link = some v → pyStrip (orEmpty v) = "" → r.link = none) ∧
        (∀ v, p.notes = some v → r.notes = v)) ∧
    (∀ r : AppRow, (create_application uid p now db).1 = .ok r →
      (pyStrip (orEmpty (getOpt p.link)) = "" → r.link = none) ∧
      r.notes = getOpt p.notes) := by
  constructor
  · intro hfind r hr
    have hre : r = applyAppPatch p now a := by
      cases hst : p.status with
      | none =>
        simp only [update_application, hfind, hst] at hr
        cases hr; rfl
      | some v =>
        by_cases hok : pyStrip (orEmpty v) ∈ DEFAULT_STATUSES
        · have hr2 : (update_application uid aid p now db).1 = .ok (applyAppPatch p now a) := by
            simp [update_application, hfind, hst, hok]
          rw [hr2] at hr
          exact (Except.ok.inj hr).symm
        · simp [update_application, hfind, hst, hok] at hr
    subst hre
    constructor
    · intro v hv hblank
      rw [applyAppPatch_link_of_blank p now a v hv hblank]
    · intro v hv
      rw [applyAppPatch_notes_some p now a v hv]
  · intro r hr
    by_cases hc : pyStrip (orEmpty (getOpt p.company)) = "" ∨ pyStrip (orEmpty (getOpt p.role)) = ""
    · have : (pyStrip (orEmpty (getOpt p.company)) = "" || pyStrip (orEmpty (getOpt p.role)) = "") = true := by
        rcases hc with hc | hc <;> simp [hc]
      simp [create_application, this] at hr
    · push_neg at hc
      have hcc : (pyStrip (orEmpty (getOpt p.company)) = "" || pyStrip (orEmpty (getOpt p.role)) = "") = false := by
        simp [hc.1, hc.2]
      by_cases hst : pyStrip (pyOrStr (getOpt p.status) "Drafting") ∈ DEFAULT_STATUSES
      · by_cases hq : MAX_APPS_PER_USER ≤ (db.applications.filter (fun x => x.user_id == uid)).length
        · simp [create_application, hcc, hst, hq] at hr
        · have hr2 : (create_application uid p now db).1 = Except.ok
              (⟨db.nextAppId, uid, pyStrip (orEmpty (getOpt p.company)),
                pyStrip (orEmpty (getOpt p.role)),
                (if pyStrip (orEmpty (getOpt p.link)) = "" then none
                  else some (pyStrip (orEmpty (getOpt p.link)))),
                pyStrip (pyOrStr (getOpt p.status) "Drafting"),
                parse_iso_datetime (jvalOfOpt (getOpt p.due_date)),
                parse_iso_datetime (jvalOfOpt (getOpt p.submitted_date)),
                getOpt p.notes, now, now⟩ : AppRow) := by
            simp [create_application, hcc, hst, hq]
          rw [hr2] at hr
          cases Except.ok.inj hr
          exact ⟨fun hb => by simp [hb], rfl⟩
      · simp [create_application, hcc, hst] at hr

/-- C7 witness: clearing the link with an empty string stores null while
the verbatim notes rule keeps an explicit empty string; creating with a
blank link and null notes stores null for both. -/
theorem claim_C7_witness :
    ((update_application 1 1 { link := some (some ""), notes := some (some "") } 5 dbW).1 = .ok
      ⟨1, 1, "Acme", "SWE", none, "Drafting", none, none, some "", 0, 5⟩ →
      ((∀ v, (some (some "") : Option (Option String)) = some v → pyStrip (orEmpty v) = "" →
          (⟨1, 1, "Acme", "SWE", none, "Drafting", none, none, some "", 0, 5⟩ : AppRow).link = none) ∧
        (∀ v, (some (some "") : Option (Option String)) = some v →
          (⟨1, 1, "Acme", "SWE", none, "Drafting", none, none, some "", 0, 5⟩ : AppRow).notes = v))) ∧
    (update_application 1 1 { link := some (some ""), notes := some (some "") } 5 dbW).1 = .ok
      ⟨1, 1, "Acme", "SWE", none, "Drafting", none, none, some "", 0, 5⟩ := by
  constructor
  · intro hok
    exact ((claim_C7_blank_optional_fields 1 1 5
      { link := some (some ""), notes := some (some "") } dbW appW).1 (by decide) _ hok)
  · decide

-- -----------------------------------------------------------------
-- C10: blank required text fields on update keep the stored value.
-- -----------------------------------------------------------------

/-- C10: an update whose field set contains a required text field
(Application company or role, Deliverable title, WritingBankItem title)
with a value that is empty after trimming succeeds, and the returned (and
stored) field keeps its previous value rather than failing or storing the
empty string.  (The hypotheses keep the other fields of the request from
failing on their own: no status key for the Application, no content key
for the WritingBankItem.) -/
theorem claim_C10_blank_required_fields_kept (uid aid did wid now : Nat)
    (pA : AppPatch) (pD : DelivPatch) (pW : WritingPatch) (db : Db)
    (a : AppRow) (d : DelivRow) (w : WritingRow) :
    (findApp uid aid db = some a → pA.status = none →
      ∃ r, (update_application uid aid pA now db).1 = .ok r ∧
        (∀ v, pA.company = some v → pyStrip (orEmpty v) = "" → r.company = a.company) ∧
        (∀ v, pA.role = some v → pyStrip (orEmpty v) = "" → r.role = a.role)) ∧
    (findDeliv uid did db = some d →
      ∃ r, (update_deliverable uid did pD now db).1 = .ok r ∧
        (∀ v, pD.title = some v → pyStrip (orEmpty v) = "" → r.title = d.title)) ∧
    (findWriting uid wid db = some w → pW.content = none →
      ∃ r, (update_writing uid wid pW now db).1 = .ok r ∧
        (∀ v, pW.title = some v → pyStrip (orEmpty v) = "" → r.title = w.title)) := by
  refine ⟨fun hfind hst => ?_, fun hfind => ?_, fun hfind hct => ?_⟩
  · refine ⟨applyAppPatch pA now a, by simp [update_application, hfind, hst], ?_, ?_⟩
    · exact fun v hv hb => applyAppPatch_company_of_blank pA now a v hv hb
    · exact fun v hv hb => applyAppPatch_role_of_blank pA now a v hv hb
  · refine ⟨applyDelivPatch pD now d, by simp [update_deliverable, hfind], ?_⟩
    exact fun v hv hb => applyDelivPatch_title_of_blank pD now d v hv hb
  · refine ⟨applyWritingPatch pW now w, by simp [update_writing, hfind, hct], ?_⟩
    exact fun v hv hb => applyWritingPatch_title_of_blank pW now w v hv hb

/-- C10 witness: blank company, role, and titles on updates against the
sample store succeed and keep the stored values. -/
theorem claim_C10_witness :
    (∃ r, (update_application 1 1 { company := some (some " "), role := some (some "") } 5 dbW).1 = .ok r ∧
      (∀ v, (some (some " ") : Option (Option String)) = some v → pyStrip (orEmpty v) = "" → r.company = appW.company) ∧
      (∀ v, (some (some "") : Option (Option String)) = some v → pyStrip (orEmpty v) = "" → r.role = appW.role)) ∧
    (∃ r, (update_deliverable 1 1 { title := some (some "  ") } 5 dbW).1 = .ok r ∧
      (∀ v, (some (some "  ") : Option (Option String)) = some v → pyStrip (orEmpty v) = "" → r.title = delivW.title)) ∧
    (∃ r, (update_writing 1 1 { title := some none } 5 dbW).1 = .ok r ∧
      (∀ v, (some (none : Option String) : Option (Option String)) = some v → pyStrip (orEmpty v) = "" → r.title = wrW.title)) := by
  have h := claim_C10_blank_required_fields_kept 1 1 1 1 5
    { company := some (some " "), role := some (some "") }
    { title := some (some "  ") } { title := some none } dbW appW delivW wrW
  refine ⟨?_, ?_, ?_⟩
  · obtain ⟨r, h1, h2, h3⟩ := h.1 (by decide) rfl
    exact ⟨r, h1, fun v hv => h2 v hv, fun v hv => h3 v hv⟩
  · obtain ⟨r, h1, h2⟩ := h.2.1 (by decide)
    exact ⟨r, h1, fun v hv => h2 v hv⟩
  · obtain ⟨r, h1, h2⟩ := h.2.2 (by decide) rfl
    exact ⟨r, h1, fun v hv => h2 v hv⟩

-- -----------------------------------------------------------------
-- C6: successful Deliverable writes refresh the parent Application.
-- -----------------------------------------------------------------

/-- The row updated by `touchApp` is the one whose id matched: under
primary-key uniqueness of Application ids, every row carrying the parent
id after the touch has `updated_at = now`, provided a matching owned row
was present. -/
theorem touchApp_updated (uid aid now : Nat) (a : AppRow)
    (hid : a.id = aid) (hu : a.user_id = uid) :
    ∀ apps : List AppRow, (apps.map AppRow.id).Nodup → a ∈ apps →
      ∀ b ∈ touchApp uid aid now apps, b.id = aid → b.updated_at = now := by
  intro apps
  induction apps with
  | nil => intro _ ha; simp at ha
  | cons x rest ih =>
    intro hnd ha b hb hbid
    simp only [List.map_cons, List.nodup_cons] at hnd
    by_cases hq : appOwnedBy uid aid x = true
    · simp only [touchApp, updateFirst, hq, if_true] at hb
      rcases List.mem_cons.mp hb with hb | hb
      · subst hb; rfl
      · exfalso
        have hxid : x.id = aid := by
          simp only [appOwnedBy, Bool.and_eq_true, beq_iff_eq] at hq
          exact hq.1
        exact hnd.1 (by rw [hxid, ← hbid]; exact List.mem_map_of_mem AppRow.id hb)
    · simp only [touchApp, updateFirst, hq, if_false] at hb
      have haq : appOwnedBy uid aid a = true := by
        simp [appOwnedBy, hid, hu]
      rcases List.mem_cons.mp hb with hb | hb
      · exfalso
        subst hb
        rcases List.mem_cons.mp ha with heq | ha'
        · rw [← heq] at hq; exact hq haq
        · exact hnd.1 (by rw [hbid, ← hid]; exact List.mem_map_of_mem AppRow.id ha')
      · have ha' : a ∈ rest := by
          rcases List.mem_cons.mp ha with heq | ha'
          · exfalso; rw [← heq] at hq; exact hq haq
          · exact ha'
        exact ih hnd.2 ha' b hb hbid

/-- C6: after a successful Deliverable create, update, or delete, every
Application row carrying the parent id (under primary-key uniqueness, the
parent row) has `updated_at` equal to the operation's `now`; hence the
parent's `updated_at` does not decrease when the clock has not gone
backwards, and strictly increases whenever the clock advanced. -/
theorem claim_C6_parent_touched (uid aid did now : Nat) (p : DelivPatch)
    (db : Db) (d : DelivRow) (a : AppRow)
    (hnd : (db.applications.map AppRow.id).Nodup) :
    (∀ r, (create_deliverable uid aid p now db).1 = .ok r →
      a ∈ db.applications → a.id = aid → a.user_id = uid →
      ∀ b ∈ (create_deliverable uid aid p now db).2.applications, b.id = aid →
        b.updated_at = now ∧
        (a.updated_at ≤ now → a.updated_at ≤ b.updated_at) ∧
        (a.updated_at < now → a.updated_at < b.updated_at)) ∧
    (findDeliv uid did db = some d →
      a ∈ db.applications → a.id = d.application_id → a.user_id = uid →
      ∀ b ∈ (update_deliverable uid did p now db).2.applications, b.id = d.application_id →
        b.updated_at = now ∧
        (a.updated_at ≤ now → a.updated_at ≤ b.updated_at) ∧
        (a.updated_at < now → a.updated_at < b.updated_at)) ∧
    (findDeliv uid did db = some d →
      a ∈ db.applications → a.id = d.application_id → a.user_id = uid →
      ∀ b ∈ (delete_deliverable uid did now db).2.applications, b.id = d.application_id →
        b.updated_at = now ∧
        (a.updated_at ≤ now → a.updated_at ≤ b.updated_at) ∧
        (a.updated_at < now → a.updated_at < b.updated_at)) := by
  refine ⟨fun r hr ha hid hu b hb hbid => ?_, fun hfind ha hid hu b hb hbid => ?_,
    fun hfind ha hid hu b hb hbid => ?_⟩
  · by_cases ht : pyStrip (orEmpty (getOpt p.title)) = ""
    · simp [create_deliverable, ht] at hr
    · cases hfind : findApp uid aid db with
      | none => simp [create_deliverable, ht, hfind] at hr
      | some x =>
        have happs : (create_deliverable uid aid p now db).2.applications =
            touchApp uid aid now db.applications := by
          simp [create_deliverable, ht, hfind]
        rw [happs] at hb
        have hb' := touchApp_updated uid aid now a hid hu db.applications hnd ha b hb hbid
        exact ⟨hb', fun h => hb' ▸ h, fun h => hb' ▸ h⟩
  · have happs : (update_deliverable uid did p now db).2.applications =
        touchApp uid d.application_id now db.applications := by
      simp [update_deliverable, hfind]
    rw [happs] at hb
    have hb' := touchApp_updated uid d.application_id now a hid hu db.applications hnd ha b hb hbid
    exact ⟨hb', fun h => hb' ▸ h, fun h => hb' ▸ h⟩
  · have happs : (delete_deliverable uid did now db).2.applications =
        touchApp uid d.application_id now db.applications := by
      simp [delete_deliverable, hfind]
    rw [happs] at hb
    have hb' := touchApp_updated uid d.application_id now a hid hu db.applications hnd ha b hb hbid
    exact ⟨hb', fun h => hb' ▸ h, fun h => hb' ▸ h⟩

/-- C6 witness: deleting deliverable 1 at tick 7 leaves the parent
Application row (id 1) with `updated_at = 7`, at least its old value 0 and
strictly above it. -/
theorem claim_C6_witness :
    (⟨1, 1, "Acme", "SWE", none, "Drafting", none, none, none, 0, 7⟩ : AppRow).updated_at = 7 ∧
    (appW.updated_at ≤ 7 →
      appW.updated_at ≤ (⟨1, 1, "Acme", "SWE", none, "Drafting", none, none, none, 0, 7⟩ : AppRow).updated_at) ∧
    (appW.updated_at < 7 →
      appW.updated_at < (⟨1, 1, "Acme", "SWE", none, "Drafting", none, none, none, 0, 7⟩ : AppRow).updated_at) := by
  exact (claim_C6_parent_touched 1 1 1 7 {} dbW delivW appW (by decide)).2.2
    (by decide) (by decide) (by decide) (by decide)
    ⟨1, 1, "Acme", "SWE", none, "Drafting", none, none, none, 0, 7⟩ (by decide) (by decide)

-- -----------------------------------------------------------------
-- C8: the chat system prompt embeds the stored Application data.
-- -----------------------------------------------------------------

theorem strContains_appendL (a b s : String) (h : strContains a s) :
    strContains (a ++ b) s := by
  obtain ⟨u, v, huv⟩ := h
  exact ⟨u, v ++ b.data, by rw [String.data_append, ← huv]; simp [List.append_assoc]⟩

theorem strContains_appendR (a b s : String) (h : strContains b s) :
    strContains (a ++ b) s := by
  obtain ⟨u, v, huv⟩ := h
  exact ⟨a.data ++ u, v, by rw [String.data_append, ← huv]; simp [List.append_assoc]⟩

theorem strContains_self (a : String) : strContains a a :=
  ⟨[], [], by simp⟩

theorem strContains_head (x rest : String) : strContains (x ++ rest) x :=
  strContains_appendL x rest x (strContains_self x)

theorem strContains_trans (hay y s : String) (h1 : strContains hay y)
    (h2 : strContains y s) : strContains hay s := by
  obtain ⟨u1, v1, h1⟩ := h1
  obtain ⟨u2, v2, h2⟩ := h2
  exact ⟨u1 ++ u2, v2 ++ v1, by rw [← h1, ← h2]; simp [List.append_assoc]⟩

theorem strContains_joinNl (xs : List String) (x : String) (hx : x ∈ xs) :
    strContains (joinNl xs) x := by
  induction xs with
  | nil => simp at hx
  | cons y rest ih =>
    cases rest with
    | nil =>
      rcases List.mem_singleton.mp hx with rfl
      exact strContains_self x
    | cons z rest' =>
      rcases List.mem_cons.mp hx with rfl | hx'
      · exact strContains_appendL _ _ _ (strContains_appendL _ _ _ (strContains_self x))
      · exact strContains_appendR _ _ _ (ih hx')

theorem systemInstruction_contains_company (a : AppRow) (ds : List DelivRow) :
    strContains (systemInstruction a ds) a.company :=
  strContains_appendR _ _ _ (strContains_head _ _)

theorem systemInstruction_contains_role (a : AppRow) (ds : List DelivRow) :
    strContains (systemInstruction a ds) a.role :=
  strContains_appendR _ _ _ (strContains_appendR _ _ _ (strContains_appendR _ _ _
    (strContains_head _ _)))

theorem systemInstruction_contains_status (a : AppRow) (ds : List DelivRow) :
    strContains (systemInstruction a ds) a.status :=
  strContains_appendR _ _ _ (strContains_appendR _ _ _ (strContains_appendR _ _ _
    (strContains_appendR _ _ _ (strContains_appendR _ _ _ (strContains_head _ _)))))

theorem systemInstruction_contains_notesSlot (a : AppRow) (ds : List DelivRow) :
    strContains (systemInstruction a ds) (notesSlot a.notes) :=
  strContains_appendR _ _ _ (strContains_appendR _ _ _ (strContains_appendR _ _ _
    (strContains_appendR _ _ _ (strContains_appendR _ _ _ (strContains_appendR _ _ _
      (strContains_appendR _ _ _ (strContains_appendR _ _ _ (strContains_appendR _ _ _
        (strContains_head _ _)))))))))

theorem systemInstruction_contains_delivBlock (a : AppRow) (ds : List DelivRow) :
    strContains (systemInstruction a ds) (delivBlock ds) :=
  strContains_appendR _ _ _ (strContains_appendR _ _ _ (strContains_appendR _ _ _
    (strContains_appendR _ _ _ (strContains_appendR _ _ _ (strContains_appendR _ _ _
      (strContains_appendR _ _ _ (strContains_appendR _ _ _ (strContains_appendR _ _ _
        (strContains_appendR _ _ _ (strContains_appendR _ _ _ (strContains_head _ _)))))))))))

/-- C8: for a chat call on an owned Application with a nonempty message
and a configured key, the reply of the context assembler is exactly the
system prompt computed from the CURRENT stored Application row and all its
stored Deliverables (recomputed on every call); that prompt contains the
company, role and status, the notes (or the fixed `None provided.`
placeholder when notes are null or empty), the fixed placeholder sentence
when there are zero Deliverables, and otherwise one line per Deliverable
carrying its title, type, raw due date and state, the lines being joined
by newlines. -/
theorem claim_C8_chat_prompt (uid aid : Nat) (message : Option String)
    (db : Db) (a : AppRow) (ds : List DelivRow)
    (hmsg : orEmpty message ≠ "") (hfind : findApp uid aid db = some a)
    (hds : ds = db.deliverables.filter (fun d => d.application_id == aid)) :
    application_chat uid aid message true db = .ok (systemInstruction a ds) ∧
    strContains (systemInstruction a ds) a.company ∧
    strContains (systemInstruction a ds) a.role ∧
    strContains (systemInstruction a ds) a.status ∧
    ((a.notes = none ∨ a.notes = some "") →
      strContains (systemInstruction a ds) "None provided.") ∧
    (∀ s, a.notes = some s → s ≠ "" → strContains (systemInstruction a ds) s) ∧
    (ds = [] → strContains (systemInstruction a ds) "No deliverables added yet.") ∧
    (∀ d ∈ ds, strContains (systemInstruction a ds) (delivLine d)) := by
  refine ⟨?_, systemInstruction_contains_company a ds, systemInstruction_contains_role a ds,
    systemInstruction_contains_status a ds, fun hn => ?_, fun s hn hne => ?_,
    fun hempty => ?_, fun d hd => ?_⟩
  · simp [application_chat, hmsg, hfind, hds]
  · have hslot : notesSlot a.notes = "None provided." := by
      rcases hn with hn | hn <;> simp [notesSlot, pyOrStr, hn]
    have := systemInstruction_contains_notesSlot a ds
    rw [hslot] at this
    exact this
  · have hslot : notesSlot a.notes = s := by
      simp [notesSlot, pyOrStr, hn, hne]
    have := systemInstruction_contains_notesSlot a ds
    rw [hslot] at this
    exact this
  · have hblock : delivBlock ds = "No deliverables added yet." := by
      simp [delivBlock, hempty]
    have := systemInstruction_contains_delivBlock a ds
    rw [hblock] at this
    exact this
  · have hne : ds.isEmpty = false := by
      cases ds with
      | nil => simp at hd
      | cons x xs => rfl
    have hblock : delivBlock ds = joinNl (ds.map delivLine) := by
      simp [delivBlock, hne]
    have hline : strContains (delivBlock ds) (delivLine d) := by
      rw [hblock]
      exact strContains_joinNl _ _ (List.mem_map_of_mem delivLine hd)
    exact strContains_trans _ _ _ (systemInstruction_contains_delivBlock a ds) hline

/-- C8 witness: chatting about application 1 (owned by user 1, null notes,
one deliverable) returns the prompt assembled from the stored rows, and
that prompt contains the company, role, status, the notes placeholder, and
the deliverable line. -/
theorem claim_C8_witness :
    application_chat 1 1 (some "hi") true dbW = .ok (systemInstruction appW [delivW]) ∧
    strContains (systemInstruction appW [delivW]) appW.company ∧
    strContains (systemInstruction appW [delivW]) appW.role ∧
    strContains (systemInstruction appW [delivW]) appW.status ∧
    strContains (systemInstruction appW [delivW]) "None provided." ∧
    strContains (systemInstruction appW [delivW]) (delivLine delivW) := by
  have h := claim_C8_chat_prompt 1 1 (some "hi") dbW appW [delivW]
    (by decide) (by decide) (by decide)
  exact ⟨h.1, h.2.1, h.2.2.1, h.2.2.2.1, h.2.2.2.2.1 (Or.inl rfl),
    h.2.2.2.2.2.2.2 delivW (by decide)⟩

-- -----------------------------------------------------------------
-- C3: date-only inputs round-trip to midnight UTC with a Z suffix.
-- -----------------------------------------------------------------

theorem parse2_rest (cs : List Char) (n : Nat) (r : List Char)
    (h : parse2 cs = some (n, r)) : r = cs.drop 2 := by
  cases cs with
  | nil => simp [parse2] at h
  | cons c1 t1 =>
    cases t1 with
    | nil => simp [parse2] at h
    | cons c2 t2 =>
      simp only [parse2] at h
      split at h
      · simp only [Option.some.injEq, Prod.mk.injEq] at h
        exact h.2.symm
      · simp at h

theorem parse4_rest (cs : List Char) (n : Nat) (r : List Char)
    (h : parse4 cs = some (n, r)) : r = cs.drop 4 := by
  cases cs with
  | nil => simp [parse4] at h
  | cons c1 t1 =>
  cases t1 with
  | nil => simp [parse4] at h
  | cons c2 t2 =>
  cases t2 with
  | nil => simp [parse4] at h
  | cons c3 t3 =>
  cases t3 with
  | nil => simp [parse4] at h
  | cons c4 t4 =>
    simp only [parse4] at h
    split at h
    · simp only [Option.some.injEq, Prod.mk.injEq] at h
      exact h.2.symm
    · simp at h

theorem expectChar_rest (c : Char) (cs r : List Char)
    (h : expectChar c cs = some r) : r = cs.drop 1 := by
  cases cs with
  | nil => simp [expectChar] at h
  | cons x t =>
    simp only [expectChar] at h
    split at h
    · simp only [Option.some.injEq] at h
      exact h.symm
    · simp at h

theorem fromiso_dateOnly (cs : List Char) (dt : PyDatetime) (hlen : cs.length = 10)
    (h : fromisoChars (cs ++ ['T', '0', '0', ':', '0', '0', ':', '0', '0']) = some dt) :
    dt.hour = 0 ∧ dt.minute = 0 ∧ dt.second = 0 ∧ dt.tz = none := by
  unfold fromisoChars at h
  split at h
  · simp at h
  · rename_i y r1 hp1
    split at h
    · simp at h
    · rename_i r2 hp2
      split at h
      · simp at h
      · rename_i mo r3 hp3
        split at h
        · simp at h
        · rename_i r4 hp4
          split at h
          · simp at h
          · rename_i dy r5 hp5
            have hr5 : r5 = ['T', '0', '0', ':', '0', '0', ':', '0', '0'] := by
              have e1 := parse4_rest _ _ _ hp1
              have e2 := expectChar_rest '-' _ _ hp2
              have e3 := parse2_rest _ _ _ hp3
              have e4 := expectChar_rest '-' _ _ hp4
              have e5 := parse2_rest _ _ _ hp5
              rw [e5, e4, e3, e2, e1]
              simp only [List.drop_drop]
              rw [show (2 + (1 + (2 + (1 + 4)))) = 10 from by norm_num,
                show (10 : Nat) = cs.length from hlen.symm, List.drop_left]
            subst hr5
            split at h
            · simp at h
            · simp only [parse2, expectChar, parseOffset, digitVal] at h
              simp at h
              rw [← h]
              exact ⟨rfl, rfl, rfl, rfl⟩

/-- Midnight conclusion of the date-only branch of `parse_iso_datetime`:
an input whose stripped form has the 10-character dashed shape and parses
successfully yields 00:00:00 at offset zero (UTC). -/
theorem parse_dateOnly_midnight (s : String) (dt : PyDatetime)
    (hlen : (pyStrip s).toList.length = 10)
    (h4 : (pyStrip s).toList.getD 4 ' ' = '-') (h7 : (pyStrip s).toList.getD 7 ' ' = '-')
    (h : parse_iso_datetime (.str s) = some dt) :
    dt.hour = 0 ∧ dt.minute = 0 ∧ dt.second = 0 ∧ dt.tz = some 0 := by
  by_cases hs : s = ""
  · subst hs
    simp [pyStrip] at hlen
  · by_cases hps : pyStrip s = ""
    · rw [hps] at hlen; simp at hlen
    · have htr : pyTruthy (.str s) = true := by simp [pyTruthy, hs]
      simp only [parse_iso_datetime, htr, Bool.not_true, Bool.false_eq_true, if_false,
        hps, hlen, h4, h7, decide_True, Bool.and_self, if_true] at h
      cases hfi : fromisoChars ((pyStrip s).toList ++ ['T', '0', '0', ':', '0', '0', ':', '0', '0']) with
      | none => rw [hfi] at h; simp at h
      | some dt0 =>
        rw [hfi] at h
        have hmid := fromiso_dateOnly _ _ hlen hfi
        simp only [hmid.2.2.2, astimezoneUTC, Option.some.injEq] at h
        rw [← h]
        exact ⟨hmid.1, hmid.2.1, hmid.2.2.1, rfl⟩

theorem digitChar_ne_plus (d : Nat) : digitChar d ≠ '+' := by
  unfold digitChar
  have h : d % 10 < 10 := Nat.mod_lt _ (by norm_num)
  generalize hk : d % 10 = k
  rw [hk] at h
  interval_cases k <;> decide

theorem natDigitsAux_ne_plus (fuel : Nat) : ∀ n, ∀ c ∈ natDigitsAux fuel n, c ≠ '+' := by
  induction fuel with
  | zero => intro n c hc; simp [natDigitsAux] at hc
  | succ f ih =>
    intro n c hc
    simp only [natDigitsAux] at hc
    split at hc
    · rcases List.mem_singleton.mp hc with rfl
      exact digitChar_ne_plus n
    · rcases List.mem_append.mp hc with hc | hc
      · exact ih _ c hc
      · rcases List.mem_singleton.mp hc with rfl
        exact digitChar_ne_plus _

theorem padNum_ne_plus (w n : Nat) : ∀ c ∈ padNum w n, c ≠ '+' := by
  intro c hc
  rcases List.mem_append.mp hc with hc | hc
  · rw [List.eq_of_mem_replicate hc]; decide
  · exact natDigitsAux_ne_plus _ _ c hc

theorem dtBodyT_ne_plus (dt : PyDatetime) : ∀ c ∈ dtBodyChars 'T' dt, c ≠ '+' := by
  intro c hc
  simp only [dtBodyChars, List.mem_append, List.mem_cons, List.not_mem_nil, or_false] at hc
  rcases hc with ((((((((((hc | hc) | hc) | hc) | hc) | hc) | hc) | hc) | hc) | hc) | hc) <;>
    first
      | exact padNum_ne_plus _ _ c hc
      | (subst hc; decide)

theorem replaceListAux_nil (pat rep : List Char) (fuel : Nat) :
    replaceListAux pat rep fuel [] = [] := by
  cases fuel <;> rfl

theorem replaceListAux_skip (p' rep : List Char) :
    ∀ core : List Char, (∀ c ∈ core, c ≠ '+') → ∀ (fuel : Nat) (tail : List Char),
      replaceListAux ('+' :: p') rep (core.length + fuel) (core ++ tail) =
        core ++ replaceListAux ('+' :: p') rep fuel tail := by
  intro core
  induction core with
  | nil => intro _ fuel tail; simp
  | cons c core' ih =>
    intro hc fuel tail
    have hcne : c ≠ '+' := hc c (List.mem_cons_self c core')
    have hpre : (('+' :: p').isPrefixOf (c :: (core' ++ tail))) = false := by
      simp only [List.isPrefixOf, Bool.and_eq_false_iff, beq_eq_false_iff_ne, ne_eq]
      exact Or.inl (fun h => hcne h.symm)
    show replaceListAux _ _ (core'.length + 1 + fuel) (c :: (core' ++ tail)) = _
    rw [show core'.length + 1 + fuel = (core'.length + fuel) + 1 from by omega]
    simp only [replaceListAux, hpre, Bool.false_eq_true, if_false]
    rw [ih (fun x hx => hc x (List.mem_cons_of_mem c hx)) fuel tail]
    rfl

theorem replace_plus_suffix (rep : List Char) (core : List Char)
    (hc : ∀ c ∈ core, c ≠ '+') :
    replaceList ['+', '0', '0', ':', '0', '0'] rep (core ++ ['+', '0', '0', ':', '0', '0']) =
      core ++ rep := by
  unfold replaceList
  rw [List.length_append,
    show (['+', '0', '0', ':', '0', '0'] : List Char).length = 6 from rfl]
  rw [replaceListAux_skip ['0', '0', ':', '0', '0'] rep core hc 6 ['+', '0', '0', ':', '0', '0']]
  congr 1
  simp [replaceListAux, List.isPrefixOf, replaceListAux_nil]

theorem astimezoneUTC_tz (d : PyDatetime) (h : d.tz ≠ none) :
    (astimezoneUTC d).tz = some 0 := by
  cases htz : d.tz with
  | none => exact absurd htz h
  | some off =>
    simp only [astimezoneUTC, htz]
    by_cases h0 : off = 0 <;> simp [h0]

/-- Every rendering of `dt_to_iso` ends in the letter Z: after conversion
to UTC the offset suffix is exactly `+00:00`, the body contains no plus
sign, and the replace rewrites that suffix to `Z`. -/
theorem dt_to_iso_endsZ (dt : PyDatetime) :
    ∃ cs, dt_to_iso (some dt) = some (String.mk (cs ++ ['Z'])) := by
  have key : ∀ d1 : PyDatetime, d1.tz ≠ none →
      String.mk (replaceList ['+', '0', '0', ':', '0', '0'] ['Z']
          (isoformatChars (astimezoneUTC d1))) =
        String.mk (dtBodyChars 'T' (astimezoneUTC d1) ++ ['Z']) := by
    intro d1 h1
    have htz := astimezoneUTC_tz d1 h1
    have hiso : isoformatChars (astimezoneUTC d1) =
        dtBodyChars 'T' (astimezoneUTC d1) ++ ['+', '0', '0', ':', '0', '0'] := by
      unfold isoformatChars
      rw [htz]
      rfl
    rw [hiso, replace_plus_suffix ['Z'] _ (dtBodyT_ne_plus _)]
  have hmain : dt_to_iso (some dt) = some (String.mk (replaceList ['+', '0', '0', ':', '0', '0'] ['Z']
      (isoformatChars (astimezoneUTC (if dt.tz = none then { dt with tz := some (0 : Int) } else dt))))) := rfl
  by_cases h : dt.tz = none
  · refine ⟨dtBodyChars 'T' (astimezoneUTC { dt with tz := some (0 : Int) }), ?_⟩
    rw [hmain, if_pos h]
    exact congrArg some (key _ (by simp))
  · refine ⟨dtBodyChars 'T' (astimezoneUTC dt), ?_⟩
    rw [hmain, if_neg h]
    exact congrArg some (key _ h)

/-- The due-date field of a successfully created Application is the parse
of the submitted value. -/
theorem create_application_due (uid : Nat) (p : AppPatch) (now : Nat) (db : Db)
    (r : AppRow) (hr : (create_application uid p now db).1 = .ok r) :
    r.due_date = parse_iso_datetime (jvalOfOpt (getOpt p.due_date)) := by
  by_cases hcompany : pyStrip (orEmpty (getOpt p.company)) = ""
  · simp [create_application, hcompany] at hr
  · by_cases hrole : pyStrip (orEmpty (getOpt p.role)) = ""
    · simp [create_application, hcompany, hrole] at hr
    · by_cases hst : pyStrip (pyOrStr (getOpt p.status) "Drafting") ∈ DEFAULT_STATUSES
      · by_cases hq : MAX_APPS_PER_USER ≤ (db.applications.filter (fun x => x.user_id == uid)).length
        · simp [create_application, hcompany, hrole, hst, hq] at hr
        · have hr2 : (create_application uid p now db).1 = Except.ok
              (⟨db.nextAppId, uid, pyStrip (orEmpty (getOpt p.company)),
                pyStrip (orEmpty (getOpt p.role)),
                (if pyStrip (orEmpty (getOpt p.link)) = "" then none
                  else some (pyStrip (orEmpty (getOpt p.link)))),
                pyStrip (pyOrStr (getOpt p.status) "Drafting"),
                parse_iso_datetime (jvalOfOpt (getOpt p.due_date)),
                parse_iso_datetime (jvalOfOpt (getOpt p.submitted_date)),
                getOpt p.notes, now, now⟩ : AppRow) := by
            simp [create_application, hcompany, hrole, hst, hq]
          rw [hr2] at hr
          cases Except.ok.inj hr
          rfl
      · simp [create_application, hcompany, hrole, hst] at hr

/-- C3: the concrete round-trip -- parsing the date-only input 2026-02-14
and rendering it back yields the ISO UTC timestamp 2026-02-14T00:00:00Z,
also through Application creation and read-back (the response renders
`due_date` with `dt_to_iso`); in general a date-only input (stripped form
of 10 characters with dashes at positions 4 and 7) parses to midnight at
offset zero (UTC), and every `dt_to_iso` rendering ends with the Z
suffix. -/
theorem claim_C3_date_roundtrip (s : String) (dt : PyDatetime) (uid now : Nat)
    (p : AppPatch) (db : Db) :
    (dt_to_iso (parse_iso_datetime (.str "2026-02-14")) = some "2026-02-14T00:00:00Z") ∧
    (∀ r, (create_application uid p now db).1 = .ok r →
      getOpt p.due_date = some "2026-02-14" →
      dt_to_iso r.due_date = some "2026-02-14T00:00:00Z") ∧
    ((pyStrip s).toList.length = 10 → (pyStrip s).toList.getD 4 ' ' = '-' →
      (pyStrip s).toList.getD 7 ' ' = '-' → parse_iso_datetime (.str s) = some dt →
      dt.hour = 0 ∧ dt.minute = 0 ∧ dt.second = 0 ∧ dt.tz = some 0) ∧
    (∃ cs, dt_to_iso (some dt) = some (String.mk (cs ++ ['Z']))) := by
  refine ⟨by decide, fun r hr hdue => ?_, fun hlen h4 h7 h => ?_, dt_to_iso_endsZ dt⟩
  · rw [create_application_due uid p now db r hr, hdue]
    decide
  · exact parse_dateOnly_midnight s dt hlen h4 h7 h

/-- C3 witness: the round-trip at 2026-02-14, through Application creation
included, plus the midnight and Z-suffix facts at the parsed value. -/
theorem claim_C3_witness :
    dt_to_iso (parse_iso_datetime (.str "2026-02-14")) = some "2026-02-14T00:00:00Z" ∧
    dt_to_iso ((⟨3, 1, "Acme", "SWE", none, "Drafting",
        some ⟨2026, 2, 14, 0, 0, 0, some 0⟩, none, none, 5, 5⟩ : AppRow).due_date) =
      some "2026-02-14T00:00:00Z" ∧
    ((⟨2026, 2, 14, 0, 0, 0, some 0⟩ : PyDatetime).hour = 0 ∧
      (⟨2026, 2, 14, 0, 0, 0, some 0⟩ : PyDatetime).minute = 0 ∧
      (⟨2026, 2, 14, 0, 0, 0, some 0⟩ : PyDatetime).second = 0 ∧
      (⟨2026, 2, 14, 0, 0, 0, some 0⟩ : PyDatetime).tz = some 0) ∧
    (∃ cs, dt_to_iso (some ⟨2026, 2, 14, 0, 0, 0, some 0⟩) = some (String.mk (cs ++ ['Z']))) := by
  have h := claim_C3_date_roundtrip "2026-02-14" ⟨2026, 2, 14, 0, 0, 0, some 0⟩ 1 5
    { company := some (some "Acme"), role := some (some "SWE"),
      due_date := some (some "2026-02-14") } dbW
  exact ⟨h.1,
    h.2.1 ⟨3, 1, "Acme", "SWE", none, "Drafting",
        some ⟨2026, 2, 14, 0, 0, 0, some 0⟩, none, none, 5, 5⟩ (by decide) (by decide),
    h.2.2.1 (by decide) (by decide) (by decide) (by decide),
    h.2.2.2⟩

end JT
